import Mathlib

/-!
# SocketHub wire protocol — shallow embedding and verification

A shallow embedding of the SocketHub header codec (`protocol/header.go`,
`protocol/header_encoder.go`), the payload checksum (`protocol/checksum.go`
together with the Go standard `hash/crc32` algorithm it calls), and the pure
frame-assembly/frame-parse cores of the TCP and UDP connection wrappers
(`connection/connection.go`).

Conventions:
- Go machine integers become `Nat`; wrap-around is written explicitly
  (`% 2 ^ 32`) where the source relies on it.
- `[]byte` and `uuid.UUID` become `List Nat`; the Go type-level facts
  (byte ranges, 16-byte identifiers) are collected in `ValidHeader`.
- Fallible code returns an explicit result type.  A Go slice-bounds panic is
  a distinct outcome (`panic`), modelling a slice whose capacity equals its
  length.
- `time.Now().UnixMilli()` becomes an explicit `now` parameter.
-/

set_option maxHeartbeats 1000000
set_option maxRecDepth 10000

namespace SocketHub

/-- `uuid.Nil`: the all-zero 16-byte identifier. -/
def uuidNil : List Nat := List.replicate 16 0

/-- `MessageTypeUnknown` from `constants.go` (`iota` value 0). -/
def MessageTypeUnknown : Nat := 0

/-- `MessageTypeData` from `constants.go`. -/
def MessageTypeData : Nat := 1

/-- `MessageTypeBroadcast` from `constants.go`. -/
def MessageTypeBroadcast : Nat := 2

/-- `MessageTypeHeartbeat` from `constants.go`. -/
def MessageTypeHeartbeat : Nat := 3

/-- `FlagNone` from `constants.go`: the `Flag` constants are declared with a
plain `iota`, so they take the consecutive values 0,1,2,3,4. -/
def FlagNone : Nat := 0

/-- `FlagACK` from `constants.go`. -/
def FlagACK : Nat := 1

/-- `FlagError` from `constants.go`. -/
def FlagError : Nat := 2

/-- `FlagCompressed` from `constants.go`. -/
def FlagCompressed : Nat := 3

/-- `FlagEncrypted` from `constants.go`. -/
def FlagEncrypted : Nat := 4

/-- `ProtocolTCP` from `constants.go`. -/
def ProtocolTCP : Nat := 0

/-- `ProtocolUDP` from `constants.go`. -/
def ProtocolUDP : Nat := 1

/-- `HasFlag` from `constants.go`: `flags&flag != 0`. -/
def HasFlag (flags flag : Nat) : Bool := flags &&& flag != 0

/-- `SetFlag` from `constants.go`: `flags | flag`. -/
def SetFlag (flags flag : Nat) : Nat := flags ||| flag

/-- `ClearFlag` from `constants.go`: `flags &^ flag`. -/
def ClearFlag (flags flag : Nat) : Nat := flags &&& (255 ^^^ flag)

/-- `SocketHeader` from `header.go`. -/
structure SocketHeader where
  ID : List Nat
  Sender : List Nat
  Receiver : List Nat
  Timestamp : Nat
  Length : Nat
  Sequence : Nat
  Protocol : Nat
  Flags : Nat
  MessageType : Nat
  Router : Nat
deriving DecidableEq

/-- All entries of a byte list are in the `byte` range. -/
def ByteListOK (l : List Nat) : Prop := ∀ b ∈ l, b < 256

instance (l : List Nat) : Decidable (ByteListOK l) :=
  inferInstanceAs (Decidable (∀ b ∈ l, b < 256))

/-- Shape of a `uuid.UUID` value: 16 bytes. -/
def UuidOK (l : List Nat) : Prop := l.length = 16 ∧ ByteListOK l

instance (l : List Nat) : Decidable (UuidOK l) :=
  inferInstanceAs (Decidable (l.length = 16 ∧ ByteListOK l))

/-- The range/shape invariants the Go field types give every `SocketHeader`
value: 16-byte identifiers, `uint64`/`uint32`/`uint8` field ranges. -/
def ValidHeader (h : SocketHeader) : Prop :=
  UuidOK h.ID ∧ UuidOK h.Sender ∧ UuidOK h.Receiver ∧
  h.Timestamp < 2 ^ 64 ∧ h.Length < 2 ^ 64 ∧ h.Sequence < 2 ^ 32 ∧
  h.Protocol < 256 ∧ h.Flags < 256 ∧ h.MessageType < 256 ∧ h.Router < 256

instance (h : SocketHeader) : Decidable (ValidHeader h) := by
  unfold ValidHeader; infer_instance

/-- `IsBroadcast` from `header.go`:
`h.MessageType == MessageTypeBroadcast && h.Receiver != uuid.Nil`. -/
def SocketHeader.IsBroadcast (h : SocketHeader) : Bool :=
  h.MessageType == MessageTypeBroadcast && h.Receiver != uuidNil

/-- `SetTimestampIfZero` from `header.go`; `now` stands for
`uint64(time.Now().UnixMilli())`.  The Go method mutates `h`, so the updated
header is the result. -/
def SetTimestampIfZero (now : Nat) (h : SocketHeader) : SocketHeader :=
  if h.Timestamp = 0 then { h with Timestamp := now } else h

/-- `HeaderSize` from `header.go`. -/
def SocketHeader.HeaderSize (h : SocketHeader) : Nat :=
  let size := 16 + 16 + 8 + 8 + 1 + 1 + 1 + 1
  let size := if h.IsBroadcast then size + 16 else size
  if h.Protocol = ProtocolUDP then size + 4 else size

/-- Big-endian bytes of the low `8*n` bits of `v`; models
`binary.BigEndian.PutUint64` (`n = 8`) and `PutUint32` (`n = 4`). -/
def beBytes : Nat → Nat → List Nat
  | 0, _ => []
  | n + 1, v => beBytes n (v / 256) ++ [v % 256]

/-- Big-endian value of a byte list; models `binary.BigEndian.Uint64` and
`Uint32` applied to a slice of the matching length. -/
def beUint (l : List Nat) : Nat := l.foldl (fun acc b => acc * 256 + b) 0

/-- Model of Go `copy(buf[off:], src)`: overwrite `buf` from position `off`
with as much of `src` as fits; the length of `buf` is preserved. -/
def goCopy (buf : List Nat) (off : Nat) (src : List Nat) : List Nat :=
  let n := min src.length (buf.length - off)
  buf.take off ++ src.take n ++ buf.drop (off + n)

/-- Model of the Go slice expression `data[off : off+n]` on a slice whose
capacity equals its length: in range it yields the `n` bytes starting at
`off`; out of range the program panics (`none`). -/
def readSlice (data : List Nat) (off n : Nat) : Option (List Nat) :=
  if off + n ≤ data.length then some ((data.drop off).take n) else none

/-- `HeaderEncode` from `header_encoder.go`, as a pure function.  The Go code
mutates `h` in place (`SetTimestampIfZero`), so the updated header is returned
alongside the encoded bytes.  The `nil`-header error branch is
unrepresentable here because headers are values. -/
def HeaderEncode (now : Nat) (h0 : SocketHeader) : SocketHeader × List Nat :=
  let h := SetTimestampIfZero now h0
  let headerSize := h.HeaderSize
  let buf := List.replicate headerSize 0
  let buf := goCopy buf 0 h.ID
  let buf := goCopy buf 16 h.Sender
  let buf := goCopy buf 32 (beBytes 8 h.Timestamp)
  let buf := goCopy buf 40 (beBytes 8 h.Length)
  let buf := buf.set 48 h.Flags
  let buf := buf.set 49 h.MessageType
  let buf := buf.set 50 h.Router
  let buf := buf.set 51 h.Protocol
  let withRecv : List Nat × Nat :=
    if h.IsBroadcast then (goCopy buf 52 h.Receiver, 52 + 16) else (buf, 52)
  let buf :=
    if h.Protocol = ProtocolUDP then
      goCopy withRecv.1 withRecv.2 (beBytes 4 h.Sequence)
    else withRecv.1
  (h, buf)

/-- The two `DecodeError` shapes returned by `HeaderDecode`. -/
inductive DecodeErr where
  | invalidHeaderSize
  | sizeMismatch
deriving DecidableEq

/-- Outcome of `HeaderDecode`: a header, a returned error, or a Go
slice-bounds panic. -/
inductive DecodeResult where
  | ok : SocketHeader → DecodeResult
  | err : DecodeErr → DecodeResult
  | panicked : DecodeResult
deriving DecidableEq

/-- `HeaderDecode` from `header_encoder.go`.  The reads are the source's
slice expressions via `readSlice`; after the `[52, 72]` size check the fixed
reads (offsets `0..51`) are always in range, but the two optional reads can
run past the end of the input — a slice-bounds panic in Go.  The nested
conditionals mirror the source's running `offset` (52, then `+16` when
`MessageType == MessageTypeBroadcast`, then `+4` when
`Protocol == ProtocolUDP`) and the final `offset != headerSize` check. -/
def HeaderDecode (data : List Nat) : DecodeResult :=
  let headerSize := data.length
  let minSize := 16 + 16 + 8 + 8 + 4
  let maxSize := minSize + 16 + 4
  if headerSize < minSize ∨ headerSize > maxSize then .err .invalidHeaderSize
  else
    match readSlice data 0 16, readSlice data 16 16, readSlice data 32 8,
        readSlice data 40 8, readSlice data 48 1, readSlice data 49 1,
        readSlice data 50 1, readSlice data 51 1 with
    | some idB, some senderB, some tsB, some lenB, some fB, some mB, some rB,
        some pB =>
      let h : SocketHeader :=
        { ID := idB, Sender := senderB, Receiver := uuidNil,
          Timestamp := beUint tsB, Length := beUint lenB, Sequence := 0,
          Protocol := pB.headD 0, Flags := fB.headD 0,
          MessageType := mB.headD 0, Router := rB.headD 0 }
      if h.MessageType = MessageTypeBroadcast then
        match readSlice data 52 16 with
        | none => .panicked
        | some recvB =>
          let h := { h with Receiver := recvB }
          if h.Protocol = ProtocolUDP then
            match readSlice data (52 + 16) 4 with
            | none => .panicked
            | some seqB =>
              if 52 + 16 + 4 ≠ headerSize then .err .sizeMismatch
              else .ok { h with Sequence := beUint seqB }
          else if 52 + 16 ≠ headerSize then .err .sizeMismatch
          else .ok h
      else if h.Protocol = ProtocolUDP then
        match readSlice data 52 4 with
        | none => .panicked
        | some seqB =>
          if 52 + 4 ≠ headerSize then .err .sizeMismatch
          else .ok { h with Sequence := beUint seqB }
      else if 52 ≠ headerSize then .err .sizeMismatch
      else .ok h
    | _, _, _, _, _, _, _, _ => .panicked

/-- The reflected CRC-32/IEEE polynomial `0xEDB88320`, the value of
`crc32.IEEE` reversed, as used by `crc32.MakeTable(crc32.IEEE)`. -/
def crcPoly : Nat := 0xEDB88320

/-- One bit step of the table construction in Go
`hash/crc32.simpleMakeTable`. -/
def crcStep (r : Nat) : Nat :=
  if r % 2 = 1 then (r >>> 1) ^^^ crcPoly else r >>> 1

/-- Entry `i` of `crc32.MakeTable(crc32.IEEE)` (the `CRC32Table` of
`checksum.go`): eight bit steps starting from `i`. -/
def crcTableEntry (i : Nat) : Nat := crcStep^[8] i

/-- One byte step of Go `hash/crc32.simpleUpdate`:
`crc = tab[byte(crc)^v] ^ (crc >> 8)`. -/
def crcUpdate1 (crc v : Nat) : Nat :=
  crcTableEntry ((crc &&& 255) ^^^ v) ^^^ (crc >>> 8)

/-- `Checksum` from `checksum.go`: Go CRC-32 over the payload bytes with the
IEEE table — complement, one table step per byte, complement. -/
def Checksum (payload : List Nat) : Nat :=
  (payload.foldl crcUpdate1 (0 ^^^ 0xFFFFFFFF)) ^^^ 0xFFFFFFFF

/-- `tcpConnWrapper.WriteFrame` from `connection/connection.go`, restricted
to its pure frame-assembly core (the final `conn.Write` transmits the
returned bytes unchanged).  The Go code mutates the caller's header
(`Length`, and `Timestamp` inside `HeaderEncode`), so the updated header is
returned with the assembled frame.  The `nil`-header error branch is
unrepresentable here. -/
def tcpWriteFrame (now : Nat) (header0 : SocketHeader) (payload : List Nat) :
    SocketHeader × List Nat :=
  let header1 := { header0 with Length := payload.length }
  let encRes := HeaderEncode now header1
  let header := encRes.1
  let headerBytes := encRes.2
  let encodedHeaderLen := headerBytes.length
  let messageSize := 1 + encodedHeaderLen + payload.length + 4
  let message := List.replicate messageSize 0
  let message := message.set 0 (encodedHeaderLen % 256)
  let message := goCopy message 1 headerBytes
  let message := goCopy message (1 + encodedHeaderLen) payload
  let message := goCopy message (messageSize - 4) (beBytes 4 (Checksum payload))
  (header, message)

/-- Result of `tcpConnWrapper.ReadFrame`. -/
inductive ReadResult where
  | ok : SocketHeader → List Nat → ReadResult
  | errShortRead : ReadResult
  | errDecode : DecodeErr → ReadResult
  | errChecksum : ReadResult
  | panicked : ReadResult
deriving DecidableEq

/-- `tcpConnWrapper.ReadFrame` from `connection/connection.go` over an
explicit byte stream: each `io.ReadFull` consumes the next exact byte count
from the stream and fails (`errShortRead`) when the stream ends first.  A
panic inside `HeaderDecode` propagates. -/
def tcpReadFrame (stream : List Nat) : ReadResult :=
  match readSlice stream 0 1 with
  | none => .errShortRead
  | some szB =>
    let hsize := szB.headD 0
    match readSlice stream 1 hsize with
    | none => .errShortRead
    | some headerBytes =>
      match HeaderDecode headerBytes with
      | .panicked => .panicked
      | .err e => .errDecode e
      | .ok h =>
        match readSlice stream (1 + hsize) (h.Length + 4) with
        | none => .errShortRead
        | some payloadAndSum =>
          let payloadData := payloadAndSum.take h.Length
          let checksumBytes := payloadAndSum.drop h.Length
          let checksum := beUint checksumBytes
          if checksum ≠ Checksum payloadData then .errChecksum
          else .ok h payloadData

/-- Write-side state of `udpConnWrapper` (`connection/connection.go`): the
configured maximum message size, the sender identity and the sequence
counter.  Addresses and the socket itself play no role in the claims. -/
structure UdpConn where
  maxMessageSize : Nat
  sender : List Nat
  sequence : Nat
deriving DecidableEq

/-- Result of `udpConnWrapper.WriteFrame`: the assembled datagram, or the
message-too-large error. -/
inductive WriteResult where
  | ok : List Nat → WriteResult
  | errTooLarge : WriteResult
deriving DecidableEq

/-- `udpConnWrapper.WriteFrame` from `connection/connection.go`, restricted
to its pure core (the final `pc.WriteTo` transmits the returned bytes
unchanged).  Field order follows the source: `Sender`, `Protocol` and
`Sequence` are overwritten and the counter incremented (`uint32`, hence
`% 2 ^ 32`) before the size check, so a too-large frame still consumes a
sequence number.  Returns the updated connection state, the updated header
and the outcome. -/
def udpWriteFrame (now : Nat) (u : UdpConn) (header0 : SocketHeader)
    (payload : List Nat) : UdpConn × SocketHeader × WriteResult :=
  let header1 :=
    { header0 with Sender := u.sender, Protocol := ProtocolUDP,
                   Sequence := u.sequence }
  let u1 := { u with sequence := (u.sequence + 1) % 2 ^ 32 }
  let header2 := { header1 with Length := payload.length }
  let encRes := HeaderEncode now header2
  let header := encRes.1
  let headerBytes := encRes.2
  let encodedHeaderLen := headerBytes.length
  let messageSize := 1 + encodedHeaderLen + payload.length + 4
  if messageSize > u.maxMessageSize then (u1, header, .errTooLarge)
  else
    let message := List.replicate messageSize 0
    let message := message.set 0 (encodedHeaderLen % 256)
    let message := goCopy message 1 headerBytes
    let message := goCopy message (1 + encodedHeaderLen) payload
    let message :=
      goCopy message (messageSize - 4) (beBytes 4 (Checksum payload))
    (u1, header, .ok message)

/-- Modelled from the spec (§4.1 serialization order): the wire layout of a
header as a plain concatenation — the fixed fields in order with big-endian
multi-byte integers, then the optional `Receiver` block under the broadcast
predicate and the optional `Sequence` block under the datagram predicate,
each after the four single-byte control fields. -/
def specHeaderLayout (h : SocketHeader) : List Nat :=
  h.ID ++ (h.Sender ++ (beBytes 8 h.Timestamp ++ (beBytes 8 h.Length ++
    h.Flags :: h.MessageType :: h.Router :: h.Protocol ::
      ((if h.IsBroadcast then h.Receiver else []) ++
        (if h.Protocol = ProtocolUDP then beBytes 4 h.Sequence else [])))))

/-- The header value `HeaderDecode` reconstructs from an in-range input,
written with the decoder's own slice expressions. -/
def decodedHeader (data : List Nat) : SocketHeader :=
  let mt := ((data.drop 49).take 1).headD 0
  let proto := ((data.drop 51).take 1).headD 0
  { ID := (data.drop 0).take 16, Sender := (data.drop 16).take 16,
    Receiver :=
      if mt = MessageTypeBroadcast then (data.drop 52).take 16 else uuidNil,
    Timestamp := beUint ((data.drop 32).take 8),
    Length := beUint ((data.drop 40).take 8),
    Sequence :=
      if proto = ProtocolUDP then
        beUint ((data.drop
          (if mt = MessageTypeBroadcast then 68 else 52)).take 4)
      else 0,
    Protocol := proto, Flags := ((data.drop 48).take 1).headD 0,
    MessageType := mt, Router := ((data.drop 50).take 1).headD 0 }

/-- The offset the decoder reaches after parsing every field of `data`
(52 plus the optional blocks selected by the message-type and protocol
bytes). -/
def bytesConsumed (data : List Nat) : Nat :=
  52 +
    (if ((data.drop 49).take 1).headD 0 = MessageTypeBroadcast then 16
     else 0) +
    (if ((data.drop 51).take 1).headD 0 = ProtocolUDP then 4 else 0)

/-- The optional part of the wire layout. -/
def layoutTail (h : SocketHeader) : List Nat :=
  (if h.IsBroadcast then h.Receiver else []) ++
    (if h.Protocol = ProtocolUDP then beBytes 4 h.Sequence else [])

instance : Std.Associative (fun x y : Nat => x ^^^ y) := ⟨Nat.xor_assoc⟩

/-- The linear part of one CRC byte step: how a state difference evolves
through `crcUpdate1`. -/
def crcShift (d : Nat) : Nat := crcTableEntry (d &&& 255) ^^^ (d >>> 8)

/-! ## Basic list and byte toolkit -/

theorem drop_replicate (a : Nat) : ∀ n k,
    (List.replicate n a).drop k = List.replicate (n - k) a
  | _, 0 => by simp
  | 0, _ + 1 => by simp
  | n + 1, k + 1 => by
    simpa [List.replicate_succ] using drop_replicate a n k

@[simp] theorem beBytes_length (n v : Nat) : (beBytes n v).length = n := by
  induction n generalizing v with
  | zero => rfl
  | succ n ih => simp [beBytes, ih]

theorem beUint_append_single (l : List Nat) (b : Nat) :
    beUint (l ++ [b]) = beUint l * 256 + b := by
  simp [beUint]

theorem beUint_beBytes (n v : Nat) : beUint (beBytes n v) = v % 2 ^ (8 * n) := by
  induction n generalizing v with
  | zero => simp [beBytes, beUint, Nat.mod_one]
  | succ n ih =>
    rw [beBytes, beUint_append_single, ih,
      show (2 : Nat) ^ (8 * (n + 1)) = 256 * 2 ^ (8 * n) by ring,
      Nat.mod_mul]
    ring

theorem beUint_beBytes_of_lt {n v : Nat} (h : v < 2 ^ (8 * n)) :
    beUint (beBytes n v) = v := by
  rw [beUint_beBytes, Nat.mod_eq_of_lt h]

@[simp] theorem goCopy_length (buf : List Nat) (off : Nat) (src : List Nat) :
    (goCopy buf off src).length = buf.length := by
  simp only [goCopy, List.length_append, List.length_take, List.length_drop]
  omega

theorem goCopy_fit {a b src : List Nat} {off : Nat} (ha : a.length = off)
    (hfit : src.length ≤ b.length) :
    goCopy (a ++ b) off src = a ++ (src ++ b.drop src.length) := by
  have hlen : (a ++ b).length - off = b.length := by
    simp [List.length_append, ← ha]
  have hmin : min src.length ((a ++ b).length - off) = src.length := by
    rw [hlen]; exact Nat.min_eq_left hfit
  have hdrop : (a ++ b).drop (off + src.length) = b.drop src.length := by
    calc (a ++ b).drop (off + src.length)
        = ((a ++ b).drop a.length).drop src.length := by
          rw [List.drop_drop, ha]
      _ = b.drop src.length := by rw [List.drop_left]
  simp only [goCopy, hmin, hdrop, List.take_length, List.take_left' ha]
  rw [List.append_assoc]

theorem set_append_of_length {a b : List Nat} {off : Nat} (ha : a.length = off)
    (v : Nat) : (a ++ b).set off v = a ++ b.set 0 v := by
  rw [List.set_append_right _ _ (by omega), ha, Nat.sub_self]

theorem readSlice_some {data : List Nat} {off n : Nat}
    (h : off + n ≤ data.length) :
    readSlice data off n = some ((data.drop off).take n) := by
  simp [readSlice, h]

theorem readSlice_none {data : List Nat} {off n : Nat}
    (h : data.length < off + n) : readSlice data off n = none := by
  simp [readSlice]; omega

/-! ## Fields untouched by `SetTimestampIfZero` -/

@[simp] theorem setTs_ID (now : Nat) (h : SocketHeader) :
    (SetTimestampIfZero now h).ID = h.ID := by
  unfold SetTimestampIfZero; split <;> rfl

@[simp] theorem setTs_Sender (now : Nat) (h : SocketHeader) :
    (SetTimestampIfZero now h).Sender = h.Sender := by
  unfold SetTimestampIfZero; split <;> rfl

@[simp] theorem setTs_Receiver (now : Nat) (h : SocketHeader) :
    (SetTimestampIfZero now h).Receiver = h.Receiver := by
  unfold SetTimestampIfZero; split <;> rfl

@[simp] theorem setTs_Length (now : Nat) (h : SocketHeader) :
    (SetTimestampIfZero now h).Length = h.Length := by
  unfold SetTimestampIfZero; split <;> rfl

@[simp] theorem setTs_Sequence (now : Nat) (h : SocketHeader) :
    (SetTimestampIfZero now h).Sequence = h.Sequence := by
  unfold SetTimestampIfZero; split <;> rfl

@[simp] theorem setTs_Protocol (now : Nat) (h : SocketHeader) :
    (SetTimestampIfZero now h).Protocol = h.Protocol := by
  unfold SetTimestampIfZero; split <;> rfl

@[simp] theorem setTs_Flags (now : Nat) (h : SocketHeader) :
    (SetTimestampIfZero now h).Flags = h.Flags := by
  unfold SetTimestampIfZero; split <;> rfl

@[simp] theorem setTs_MessageType (now : Nat) (h : SocketHeader) :
    (SetTimestampIfZero now h).MessageType = h.MessageType := by
  unfold SetTimestampIfZero; split <;> rfl

@[simp] theorem setTs_Router (now : Nat) (h : SocketHeader) :
    (SetTimestampIfZero now h).Router = h.Router := by
  unfold SetTimestampIfZero; split <;> rfl

@[simp] theorem setTs_IsBroadcast (now : Nat) (h : SocketHeader) :
    (SetTimestampIfZero now h).IsBroadcast = h.IsBroadcast := by
  unfold SocketHeader.IsBroadcast
  rw [setTs_MessageType, setTs_Receiver]

@[simp] theorem setTs_HeaderSize (now : Nat) (h : SocketHeader) :
    (SetTimestampIfZero now h).HeaderSize = h.HeaderSize := by
  unfold SocketHeader.HeaderSize
  rw [setTs_IsBroadcast, setTs_Protocol]

theorem setTs_Timestamp (now : Nat) (h : SocketHeader) :
    (SetTimestampIfZero now h).Timestamp =
      if h.Timestamp = 0 then now else h.Timestamp := by
  unfold SetTimestampIfZero; split <;> simp_all

/-! ## Encoder layout -/

theorem specHeaderLayout_length {h : SocketHeader}
    (hID : h.ID.length = 16) (hS : h.Sender.length = 16)
    (hR : h.IsBroadcast = true → h.Receiver.length = 16) :
    (specHeaderLayout h).length = h.HeaderSize := by
  unfold specHeaderLayout SocketHeader.HeaderSize
  rcases hbc : h.IsBroadcast with _ | _ <;>
    rcases hp : decide (h.Protocol = ProtocolUDP) with _ | _ <;>
      simp_all [List.length_append, decide_eq_true_eq] <;> omega

theorem encode_fixed (h : SocketHeader) (n : Nat) (hn : 52 ≤ n)
    (hID : h.ID.length = 16) (hS : h.Sender.length = 16) :
    ((((goCopy (goCopy (goCopy (goCopy (List.replicate n 0) 0 h.ID) 16
        h.Sender) 32 (beBytes 8 h.Timestamp)) 40 (beBytes 8 h.Length)).set 48
        h.Flags).set 49 h.MessageType).set 50 h.Router).set 51 h.Protocol =
    h.ID ++ (h.Sender ++ (beBytes 8 h.Timestamp ++ (beBytes 8 h.Length ++
      h.Flags :: h.MessageType :: h.Router :: h.Protocol ::
        List.replicate (n - 52) 0))) := by
  have e1 : goCopy (List.replicate n 0) 0 h.ID =
      h.ID ++ List.replicate (n - 16) 0 := by
    have := @goCopy_fit [] (List.replicate n 0) h.ID 0 rfl
      (by simp [hID]; omega)
    simpa [drop_replicate, hID] using this
  rw [e1]
  have e2 : goCopy (h.ID ++ List.replicate (n - 16) 0) 16 h.Sender =
      h.ID ++ (h.Sender ++ List.replicate (n - 32) 0) := by
    have := @goCopy_fit h.ID (List.replicate (n - 16) 0) h.Sender 16 hID
      (by simp [hS]; omega)
    simpa [drop_replicate, hS, Nat.sub_sub] using this
  rw [e2, ← List.append_assoc]
  have e3 : goCopy ((h.ID ++ h.Sender) ++ List.replicate (n - 32) 0) 32
      (beBytes 8 h.Timestamp) =
      (h.ID ++ h.Sender) ++ (beBytes 8 h.Timestamp ++
        List.replicate (n - 40) 0) := by
    have := @goCopy_fit (h.ID ++ h.Sender) (List.replicate (n - 32) 0)
      (beBytes 8 h.Timestamp) 32 (by simp [hID, hS]) (by simp; omega)
    simpa [drop_replicate, Nat.sub_sub] using this
  rw [e3, ← List.append_assoc]
  have e4 : goCopy (((h.ID ++ h.Sender) ++ beBytes 8 h.Timestamp) ++
      List.replicate (n - 40) 0) 40 (beBytes 8 h.Length) =
      ((h.ID ++ h.Sender) ++ beBytes 8 h.Timestamp) ++
        (beBytes 8 h.Length ++ List.replicate (n - 48) 0) := by
    have := @goCopy_fit ((h.ID ++ h.Sender) ++ beBytes 8 h.Timestamp)
      (List.replicate (n - 40) 0) (beBytes 8 h.Length) 40
      (by simp [hID, hS]) (by simp; omega)
    simpa [drop_replicate, Nat.sub_sub] using this
  rw [e4, ← List.append_assoc]
  have hrep : List.replicate (n - 48) (0 : Nat) =
      0 :: 0 :: 0 :: 0 :: List.replicate (n - 52) 0 := by
    rw [show n - 48 = (((n - 52) + 1) + 1 + 1) + 1 by omega]
    rw [List.replicate_succ, List.replicate_succ, List.replicate_succ,
      List.replicate_succ]
  rw [hrep]
  have hP48 : ((((h.ID ++ h.Sender) ++ beBytes 8 h.Timestamp) ++
      beBytes 8 h.Length)).length = 48 := by simp [hID, hS]
  rw [set_append_of_length hP48]
  rw [List.set_append_right _ _ (by omega), hP48]
  rw [List.set_append_right _ _ (by omega), hP48]
  rw [List.set_append_right _ _ (by omega), hP48]
  simp [List.append_assoc]

theorem headerSize_ge (h : SocketHeader) : 52 ≤ h.HeaderSize := by
  unfold SocketHeader.HeaderSize
  dsimp only
  split <;> split <;> omega

/-- The encoder's buffer-and-offset writes produce exactly the spec's
concatenation layout for the timestamp-adjusted header. -/
theorem headerEncode_bytes (now : Nat) (h0 : SocketHeader)
    (hID : h0.ID.length = 16) (hS : h0.Sender.length = 16)
    (hR : h0.IsBroadcast = true → h0.Receiver.length = 16) :
    (HeaderEncode now h0).2 = specHeaderLayout (SetTimestampIfZero now h0) := by
  simp only [HeaderEncode]
  set h := SetTimestampIfZero now h0 with hh
  have hID' : h.ID.length = 16 := by rw [hh, setTs_ID]; exact hID
  have hS' : h.Sender.length = 16 := by rw [hh, setTs_Sender]; exact hS
  have hR' : h.IsBroadcast = true → h.Receiver.length = 16 := by
    rw [hh, setTs_IsBroadcast, setTs_Receiver]; exact hR
  clear_value h
  clear hh hID hS hR
  rw [encode_fixed h h.HeaderSize (headerSize_ge h) hID' hS']
  rcases hbc : h.IsBroadcast with _ | _ <;> by_cases hp : h.Protocol = ProtocolUDP
  · -- not broadcast, UDP (size 56)
    have hsize : h.HeaderSize = 56 := by
      simp [SocketHeader.HeaderSize, hbc, hp]
    rw [hsize]
    simp only [specHeaderLayout, hbc, Bool.false_eq_true, if_false,
      if_pos hp]
    rw [show h.Flags :: h.MessageType :: h.Router :: h.Protocol ::
        List.replicate (56 - 52) (0 : Nat) =
        [h.Flags, h.MessageType, h.Router, h.Protocol] ++
          List.replicate 4 0 from rfl]
    rw [← List.append_assoc, ← List.append_assoc, ← List.append_assoc,
      ← List.append_assoc]
    rw [goCopy_fit (by simp [hID', hS']) (by simp)]
    simp [drop_replicate, List.append_assoc]
  · -- not broadcast, not UDP (size 52)
    have hsize : h.HeaderSize = 52 := by
      simp [SocketHeader.HeaderSize, hbc, hp]
    rw [hsize]
    simp [specHeaderLayout, hbc, hp]
  · -- broadcast, UDP (size 72)
    have hRl : h.Receiver.length = 16 := hR' hbc
    have hsize : h.HeaderSize = 72 := by
      simp [SocketHeader.HeaderSize, hbc, hp]
    rw [hsize]
    simp only [specHeaderLayout, hbc, if_true, if_pos hp]
    have e5 : goCopy (h.ID ++ (h.Sender ++ (beBytes 8 h.Timestamp ++
        (beBytes 8 h.Length ++ h.Flags :: h.MessageType :: h.Router ::
          h.Protocol :: List.replicate (72 - 52) 0)))) 52 h.Receiver =
        h.ID ++ (h.Sender ++ (beBytes 8 h.Timestamp ++ (beBytes 8 h.Length ++
          h.Flags :: h.MessageType :: h.Router :: h.Protocol ::
            (h.Receiver ++ List.replicate 4 0)))) := by
      rw [show h.Flags :: h.MessageType :: h.Router :: h.Protocol ::
          List.replicate (72 - 52) (0 : Nat) =
          [h.Flags, h.MessageType, h.Router, h.Protocol] ++
            List.replicate 20 0 from rfl]
      rw [← List.append_assoc, ← List.append_assoc, ← List.append_assoc,
        ← List.append_assoc]
      rw [goCopy_fit (by simp [hID', hS']) (by simp [hRl])]
      simp [drop_replicate, hRl, List.append_assoc]
    rw [e5]
    rw [show h.Flags :: h.MessageType :: h.Router :: h.Protocol ::
        (h.Receiver ++ List.replicate 4 (0 : Nat)) =
        ([h.Flags, h.MessageType, h.Router, h.Protocol] ++ h.Receiver) ++
          List.replicate 4 0 from by simp]
    rw [← List.append_assoc, ← List.append_assoc, ← List.append_assoc,
      ← List.append_assoc]
    rw [goCopy_fit (by simp [hID', hS', hRl]) (by simp)]
    simp [drop_replicate, List.append_assoc]
  · -- broadcast, not UDP (size 68)
    have hRl : h.Receiver.length = 16 := hR' hbc
    have hsize : h.HeaderSize = 68 := by
      simp [SocketHeader.HeaderSize, hbc, hp]
    rw [hsize]
    simp only [specHeaderLayout, hbc, if_true, if_neg hp]
    rw [show h.Flags :: h.MessageType :: h.Router :: h.Protocol ::
        List.replicate (68 - 52) (0 : Nat) =
        [h.Flags, h.MessageType, h.Router, h.Protocol] ++
          List.replicate 16 0 from rfl]
    rw [← List.append_assoc, ← List.append_assoc, ← List.append_assoc,
      ← List.append_assoc]
    rw [goCopy_fit (by simp [hID', hS']) (by simp [hRl])]
    simp [drop_replicate, hRl, List.append_assoc]

/-! ## Decoder characterization -/

theorem headerDecode_outOfRange {data : List Nat}
    (hlen : data.length < 52 ∨ 72 < data.length) :
    HeaderDecode data = .err .invalidHeaderSize := by
  simp only [HeaderDecode]
  rw [if_pos (by omega)]

theorem bytesConsumed_eq (data : List Nat) :
    bytesConsumed data =
      if ((data.drop 49).take 1).headD 0 = MessageTypeBroadcast then
        (if ((data.drop 51).take 1).headD 0 = ProtocolUDP then 72 else 68)
      else
        (if ((data.drop 51).take 1).headD 0 = ProtocolUDP then 56 else 52) := by
  unfold bytesConsumed
  split_ifs <;> omega

theorem headerDecode_panic {data : List Nat} (h52 : 52 ≤ data.length)
    (h72 : data.length ≤ 72) (hc : data.length < bytesConsumed data) :
    HeaderDecode data = .panicked := by
  simp only [HeaderDecode]
  rw [if_neg (by omega)]
  simp only [readSlice_some (show 0 + 16 ≤ data.length by omega),
    readSlice_some (show 16 + 16 ≤ data.length by omega),
    readSlice_some (show 32 + 8 ≤ data.length by omega),
    readSlice_some (show 40 + 8 ≤ data.length by omega),
    readSlice_some (show 48 + 1 ≤ data.length by omega),
    readSlice_some (show 49 + 1 ≤ data.length by omega),
    readSlice_some (show 50 + 1 ≤ data.length by omega),
    readSlice_some (show 51 + 1 ≤ data.length by omega)]
  by_cases hmt : ((data.drop 49).take 1).headD 0 = MessageTypeBroadcast <;>
    by_cases hpr : ((data.drop 51).take 1).headD 0 = ProtocolUDP
  · have hcv : bytesConsumed data = 72 := by
      rw [bytesConsumed_eq, if_pos hmt, if_pos hpr]
    simp only [if_pos hmt, if_pos hpr]
    by_cases hr : 52 + 16 ≤ data.length
    · simp only [readSlice_some hr,
        readSlice_none (show data.length < 52 + 16 + 4 by omega)]
    · simp only [readSlice_none (show data.length < 52 + 16 by omega)]
  · have hcv : bytesConsumed data = 68 := by
      rw [bytesConsumed_eq, if_pos hmt, if_neg hpr]
    simp only [if_pos hmt, if_neg hpr]
    simp only [readSlice_none (show data.length < 52 + 16 by omega)]
  · have hcv : bytesConsumed data = 56 := by
      rw [bytesConsumed_eq, if_neg hmt, if_pos hpr]
    simp only [if_neg hmt, if_pos hpr]
    simp only [readSlice_none (show data.length < 52 + 4 by omega)]
  · have hcv : bytesConsumed data = 52 := by
      rw [bytesConsumed_eq, if_neg hmt, if_neg hpr]
    omega

theorem headerDecode_ok {data : List Nat} (h52 : 52 ≤ data.length)
    (h72 : data.length ≤ 72) (hc : bytesConsumed data = data.length) :
    HeaderDecode data = .ok (decodedHeader data) := by
  simp only [HeaderDecode]
  rw [if_neg (by omega)]
  simp only [readSlice_some (show 0 + 16 ≤ data.length by omega),
    readSlice_some (show 16 + 16 ≤ data.length by omega),
    readSlice_some (show 32 + 8 ≤ data.length by omega),
    readSlice_some (show 40 + 8 ≤ data.length by omega),
    readSlice_some (show 48 + 1 ≤ data.length by omega),
    readSlice_some (show 49 + 1 ≤ data.length by omega),
    readSlice_some (show 50 + 1 ≤ data.length by omega),
    readSlice_some (show 51 + 1 ≤ data.length by omega)]
  by_cases hmt : ((data.drop 49).take 1).headD 0 = MessageTypeBroadcast <;>
    by_cases hpr : ((data.drop 51).take 1).headD 0 = ProtocolUDP
  · have hcv : bytesConsumed data = 72 := by
      rw [bytesConsumed_eq, if_pos hmt, if_pos hpr]
    simp only [if_pos hmt, if_pos hpr]
    simp only [readSlice_some (show 52 + 16 ≤ data.length by omega),
      readSlice_some (show 52 + 16 + 4 ≤ data.length by omega)]
    rw [if_neg (show ¬ 52 + 16 + 4 ≠ data.length by omega)]
    simp only [decodedHeader, if_pos hmt, if_pos hpr]
  · have hcv : bytesConsumed data = 68 := by
      rw [bytesConsumed_eq, if_pos hmt, if_neg hpr]
    simp only [if_pos hmt, if_neg hpr]
    simp only [readSlice_some (show 52 + 16 ≤ data.length by omega)]
    rw [if_neg (show ¬ 52 + 16 ≠ data.length by omega)]
    simp only [decodedHeader, if_pos hmt, if_neg hpr]
  · have hcv : bytesConsumed data = 56 := by
      rw [bytesConsumed_eq, if_neg hmt, if_pos hpr]
    simp only [if_neg hmt, if_pos hpr]
    simp only [readSlice_some (show 52 + 4 ≤ data.length by omega)]
    rw [if_neg (show ¬ 52 + 4 ≠ data.length by omega)]
    simp only [decodedHeader, if_neg hmt, if_pos hpr]
  · have hcv : bytesConsumed data = 52 := by
      rw [bytesConsumed_eq, if_neg hmt, if_neg hpr]
    simp only [if_neg hmt, if_neg hpr]
    rw [if_neg (show ¬ 52 ≠ data.length by omega)]
    simp only [decodedHeader, if_neg hmt, if_neg hpr]

theorem headerDecode_mismatch {data : List Nat} (h52 : 52 ≤ data.length)
    (h72 : data.length ≤ 72) (hc : bytesConsumed data < data.length) :
    HeaderDecode data = .err .sizeMismatch := by
  simp only [HeaderDecode]
  rw [if_neg (by omega)]
  simp only [readSlice_some (show 0 + 16 ≤ data.length by omega),
    readSlice_some (show 16 + 16 ≤ data.length by omega),
    readSlice_some (show 32 + 8 ≤ data.length by omega),
    readSlice_some (show 40 + 8 ≤ data.length by omega),
    readSlice_some (show 48 + 1 ≤ data.length by omega),
    readSlice_some (show 49 + 1 ≤ data.length by omega),
    readSlice_some (show 50 + 1 ≤ data.length by omega),
    readSlice_some (show 51 + 1 ≤ data.length by omega)]
  by_cases hmt : ((data.drop 49).take 1).headD 0 = MessageTypeBroadcast <;>
    by_cases hpr : ((data.drop 51).take 1).headD 0 = ProtocolUDP
  · have hcv : bytesConsumed data = 72 := by
      rw [bytesConsumed_eq, if_pos hmt, if_pos hpr]
    omega
  · have hcv : bytesConsumed data = 68 := by
      rw [bytesConsumed_eq, if_pos hmt, if_neg hpr]
    simp only [if_pos hmt, if_neg hpr]
    simp only [readSlice_some (show 52 + 16 ≤ data.length by omega)]
    rw [if_pos (show 52 + 16 ≠ data.length by omega)]
  · have hcv : bytesConsumed data = 56 := by
      rw [bytesConsumed_eq, if_neg hmt, if_pos hpr]
    simp only [if_neg hmt, if_pos hpr]
    simp only [readSlice_some (show 52 + 4 ≤ data.length by omega)]
    rw [if_pos (show 52 + 4 ≠ data.length by omega)]
  · have hcv : bytesConsumed data = 52 := by
      rw [bytesConsumed_eq, if_neg hmt, if_neg hpr]
    simp only [if_neg hmt, if_neg hpr]
    rw [if_pos (show 52 ≠ data.length by omega)]

/-! ## Reading the layout back -/

theorem specHeaderLayout_parts (h : SocketHeader) :
    specHeaderLayout h =
      h.ID ++ (h.Sender ++ (beBytes 8 h.Timestamp ++ (beBytes 8 h.Length ++
        h.Flags :: h.MessageType :: h.Router :: h.Protocol ::
          layoutTail h))) := rfl

theorem layout_drop16 (h : SocketHeader) (hID : h.ID.length = 16) :
    (specHeaderLayout h).drop 16 =
      h.Sender ++ (beBytes 8 h.Timestamp ++ (beBytes 8 h.Length ++
        h.Flags :: h.MessageType :: h.Router :: h.Protocol ::
          layoutTail h)) := by
  rw [specHeaderLayout_parts]
  exact List.drop_left' hID

theorem layout_drop32 (h : SocketHeader) (hID : h.ID.length = 16)
    (hS : h.Sender.length = 16) :
    (specHeaderLayout h).drop 32 =
      beBytes 8 h.Timestamp ++ (beBytes 8 h.Length ++
        h.Flags :: h.MessageType :: h.Router :: h.Protocol ::
          layoutTail h) := by
  calc (specHeaderLayout h).drop 32
      = ((specHeaderLayout h).drop 16).drop 16 := by
        rw [List.drop_drop]
    _ = _ := by rw [layout_drop16 h hID]; exact List.drop_left' hS

theorem layout_drop40 (h : SocketHeader) (hID : h.ID.length = 16)
    (hS : h.Sender.length = 16) :
    (specHeaderLayout h).drop 40 =
      beBytes 8 h.Length ++ h.Flags :: h.MessageType :: h.Router ::
        h.Protocol :: layoutTail h := by
  calc (specHeaderLayout h).drop 40
      = ((specHeaderLayout h).drop 32).drop 8 := by
        rw [List.drop_drop]
    _ = _ := by
        rw [layout_drop32 h hID hS]
        exact List.drop_left' (beBytes_length 8 h.Timestamp)

theorem layout_drop48 (h : SocketHeader) (hID : h.ID.length = 16)
    (hS : h.Sender.length = 16) :
    (specHeaderLayout h).drop 48 =
      h.Flags :: h.MessageType :: h.Router :: h.Protocol ::
        layoutTail h := by
  calc (specHeaderLayout h).drop 48
      = ((specHeaderLayout h).drop 40).drop 8 := by
        rw [List.drop_drop]
    _ = _ := by
        rw [layout_drop40 h hID hS]
        exact List.drop_left' (beBytes_length 8 h.Length)

theorem layout_drop52 (h : SocketHeader) (hID : h.ID.length = 16)
    (hS : h.Sender.length = 16) :
    (specHeaderLayout h).drop 52 = layoutTail h := by
  calc (specHeaderLayout h).drop 52
      = ((specHeaderLayout h).drop 48).drop 4 := by
        rw [List.drop_drop]
    _ = _ := by rw [layout_drop48 h hID hS]; rfl

theorem layout_id (h : SocketHeader) (hID : h.ID.length = 16) :
    ((specHeaderLayout h).drop 0).take 16 = h.ID := by
  rw [List.drop_zero, specHeaderLayout_parts]
  exact List.take_left' hID

theorem layout_sender (h : SocketHeader) (hID : h.ID.length = 16)
    (hS : h.Sender.length = 16) :
    ((specHeaderLayout h).drop 16).take 16 = h.Sender := by
  rw [layout_drop16 h hID]
  exact List.take_left' hS

theorem layout_ts (h : SocketHeader) (hID : h.ID.length = 16)
    (hS : h.Sender.length = 16) :
    ((specHeaderLayout h).drop 32).take 8 = beBytes 8 h.Timestamp := by
  rw [layout_drop32 h hID hS]
  exact List.take_left' (beBytes_length 8 h.Timestamp)

theorem layout_len (h : SocketHeader) (hID : h.ID.length = 16)
    (hS : h.Sender.length = 16) :
    ((specHeaderLayout h).drop 40).take 8 = beBytes 8 h.Length := by
  rw [layout_drop40 h hID hS]
  exact List.take_left' (beBytes_length 8 h.Length)

theorem layout_flags (h : SocketHeader) (hID : h.ID.length = 16)
    (hS : h.Sender.length = 16) :
    (((specHeaderLayout h).drop 48).take 1).headD 0 = h.Flags := by
  rw [layout_drop48 h hID hS]
  rfl

theorem layout_mt (h : SocketHeader) (hID : h.ID.length = 16)
    (hS : h.Sender.length = 16) :
    (((specHeaderLayout h).drop 49).take 1).headD 0 = h.MessageType := by
  have e : (specHeaderLayout h).drop 49 =
      ((specHeaderLayout h).drop 48).drop 1 := by rw [List.drop_drop]
  rw [e, layout_drop48 h hID hS]
  rfl

theorem layout_router (h : SocketHeader) (hID : h.ID.length = 16)
    (hS : h.Sender.length = 16) :
    (((specHeaderLayout h).drop 50).take 1).headD 0 = h.Router := by
  have e : (specHeaderLayout h).drop 50 =
      ((specHeaderLayout h).drop 48).drop 2 := by rw [List.drop_drop]
  rw [e, layout_drop48 h hID hS]
  rfl

theorem layout_proto (h : SocketHeader) (hID : h.ID.length = 16)
    (hS : h.Sender.length = 16) :
    (((specHeaderLayout h).drop 51).take 1).headD 0 = h.Protocol := by
  have e : (specHeaderLayout h).drop 51 =
      ((specHeaderLayout h).drop 48).drop 3 := by rw [List.drop_drop]
  rw [e, layout_drop48 h hID hS]
  rfl

theorem layout_receiver (h : SocketHeader) (hID : h.ID.length = 16)
    (hS : h.Sender.length = 16) (hbc : h.IsBroadcast = true)
    (hRl : h.Receiver.length = 16) :
    ((specHeaderLayout h).drop 52).take 16 = h.Receiver := by
  rw [layout_drop52 h hID hS]
  unfold layoutTail
  rw [if_pos hbc]
  exact List.take_left' hRl

theorem layout_seq_bc (h : SocketHeader) (hID : h.ID.length = 16)
    (hS : h.Sender.length = 16) (hbc : h.IsBroadcast = true)
    (hRl : h.Receiver.length = 16) (hpr : h.Protocol = ProtocolUDP) :
    ((specHeaderLayout h).drop 68).take 4 = beBytes 4 h.Sequence := by
  have e : (specHeaderLayout h).drop 68 =
      ((specHeaderLayout h).drop 52).drop 16 := by rw [List.drop_drop]
  rw [e, layout_drop52 h hID hS]
  unfold layoutTail
  rw [if_pos hbc, if_pos hpr, List.drop_left' hRl]
  exact List.take_all_of_le (by rw [beBytes_length])

theorem layout_seq_nobc (h : SocketHeader) (hID : h.ID.length = 16)
    (hS : h.Sender.length = 16) (hbc : h.IsBroadcast = false)
    (hpr : h.Protocol = ProtocolUDP) :
    ((specHeaderLayout h).drop 52).take 4 = beBytes 4 h.Sequence := by
  rw [layout_drop52 h hID hS]
  unfold layoutTail
  rw [hbc]
  rw [if_neg (by simp), if_pos hpr, List.nil_append]
  exact List.take_all_of_le (by rw [beBytes_length])

theorem isBroadcast_iff (h : SocketHeader) :
    h.IsBroadcast = true ↔
      (h.MessageType = MessageTypeBroadcast ∧ h.Receiver ≠ uuidNil) := by
  simp [SocketHeader.IsBroadcast]

theorem headerSize_le (h : SocketHeader) : h.HeaderSize ≤ 72 := by
  unfold SocketHeader.HeaderSize
  dsimp only
  split <;> split <;> omega

/-- Decoding the encoded layout of a header succeeds and reproduces the
fields, provided the header is not in the degenerate
broadcast-with-zero-receiver corner (where the optional-block predicates of
encoder and decoder disagree). -/
theorem headerDecode_layout (h : SocketHeader)
    (hID : h.ID.length = 16) (hS : h.Sender.length = 16)
    (hR : h.IsBroadcast = true → h.Receiver.length = 16)
    (hts : h.Timestamp < 2 ^ 64) (hlen : h.Length < 2 ^ 64)
    (hseq : h.Sequence < 2 ^ 32)
    (hne : ¬(h.MessageType = MessageTypeBroadcast ∧ h.Receiver = uuidNil)) :
    HeaderDecode (specHeaderLayout h) =
      .ok { h with
        Receiver := if h.IsBroadcast then h.Receiver else uuidNil,
        Sequence := if h.Protocol = ProtocolUDP then h.Sequence else 0 } := by
  have hdl : (specHeaderLayout h).length = h.HeaderSize :=
    specHeaderLayout_length hID hS hR
  have h52 : 52 ≤ (specHeaderLayout h).length := by
    rw [hdl]; exact headerSize_ge h
  have h72 : (specHeaderLayout h).length ≤ 72 := by
    rw [hdl]; exact headerSize_le h
  have hmt' := layout_mt h hID hS
  have hpr' := layout_proto h hID hS
  by_cases hmt : h.MessageType = MessageTypeBroadcast <;>
    by_cases hpr : h.Protocol = ProtocolUDP
  · -- broadcast message type (hence, by hne, a real broadcast) over UDP
    have hbc : h.IsBroadcast = true := by
      rw [isBroadcast_iff]
      exact ⟨hmt, fun hnil => hne ⟨hmt, hnil⟩⟩
    have hRl : h.Receiver.length = 16 := hR hbc
    have hsz : h.HeaderSize = 72 := by
      simp [SocketHeader.HeaderSize, hbc, hpr]
    have hc : bytesConsumed (specHeaderLayout h) =
        (specHeaderLayout h).length := by
      rw [bytesConsumed_eq, hmt', hpr', if_pos hmt, if_pos hpr, hdl, hsz]
    rw [headerDecode_ok h52 h72 hc]
    simp only [decodedHeader, hmt', hpr', if_pos hmt, if_pos hpr]
    rw [layout_id h hID, layout_sender h hID hS, layout_ts h hID hS,
      layout_len h hID hS, layout_flags h hID hS, layout_router h hID hS,
      layout_receiver h hID hS hbc hRl, layout_seq_bc h hID hS hbc hRl hpr,
      beUint_beBytes_of_lt hts, beUint_beBytes_of_lt hlen,
      beUint_beBytes_of_lt (by exact_mod_cast hseq)]
    simp [hbc, hpr, hmt]
  · have hbc : h.IsBroadcast = true := by
      rw [isBroadcast_iff]
      exact ⟨hmt, fun hnil => hne ⟨hmt, hnil⟩⟩
    have hRl : h.Receiver.length = 16 := hR hbc
    have hsz : h.HeaderSize = 68 := by
      simp [SocketHeader.HeaderSize, hbc, hpr]
    have hc : bytesConsumed (specHeaderLayout h) =
        (specHeaderLayout h).length := by
      rw [bytesConsumed_eq, hmt', hpr', if_pos hmt, if_neg hpr, hdl, hsz]
    rw [headerDecode_ok h52 h72 hc]
    simp only [decodedHeader, hmt', hpr', if_pos hmt, if_neg hpr]
    rw [layout_id h hID, layout_sender h hID hS, layout_ts h hID hS,
      layout_len h hID hS, layout_flags h hID hS, layout_router h hID hS,
      layout_receiver h hID hS hbc hRl,
      beUint_beBytes_of_lt hts, beUint_beBytes_of_lt hlen]
    simp [hbc, hpr, hmt]
  · have hbc : h.IsBroadcast = false := by
      rw [← Bool.not_eq_true, isBroadcast_iff]
      intro hand
      exact hmt hand.1
    have hsz : h.HeaderSize = 56 := by
      simp [SocketHeader.HeaderSize, hbc, hpr]
    have hc : bytesConsumed (specHeaderLayout h) =
        (specHeaderLayout h).length := by
      rw [bytesConsumed_eq, hmt', hpr', if_neg hmt, if_pos hpr, hdl, hsz]
    rw [headerDecode_ok h52 h72 hc]
    simp only [decodedHeader, hmt', hpr', if_neg hmt, if_pos hpr]
    rw [layout_seq_nobc h hID hS hbc hpr]
    rw [layout_id h hID, layout_sender h hID hS, layout_ts h hID hS,
      layout_len h hID hS, layout_flags h hID hS, layout_router h hID hS,
      beUint_beBytes_of_lt hts, beUint_beBytes_of_lt hlen,
      beUint_beBytes_of_lt (by exact_mod_cast hseq)]
    simp [hbc, hpr, hmt]
  · have hbc : h.IsBroadcast = false := by
      rw [← Bool.not_eq_true, isBroadcast_iff]
      intro hand
      exact hmt hand.1
    have hsz : h.HeaderSize = 52 := by
      simp [SocketHeader.HeaderSize, hbc, hpr]
    have hc : bytesConsumed (specHeaderLayout h) =
        (specHeaderLayout h).length := by
      rw [bytesConsumed_eq, hmt', hpr', if_neg hmt, if_neg hpr, hdl, hsz]
    rw [headerDecode_ok h52 h72 hc]
    simp only [decodedHeader, hmt', hpr', if_neg hmt, if_neg hpr]
    rw [layout_id h hID, layout_sender h hID hS, layout_ts h hID hS,
      layout_len h hID hS, layout_flags h hID hS, layout_router h hID hS,
      beUint_beBytes_of_lt hts, beUint_beBytes_of_lt hlen]
    simp [hbc, hpr, hmt]

/-! ## CRC-32 sensitivity -/

theorem shiftRight_xor_distrib (a b n : Nat) :
    (a ^^^ b) >>> n = (a >>> n) ^^^ (b >>> n) := by
  apply Nat.eq_of_testBit_eq
  intro i
  simp [Nat.testBit_shiftRight, Nat.testBit_xor]

theorem xor_left_comm (a b c : Nat) :
    a ^^^ (b ^^^ c) = b ^^^ (a ^^^ c) := by
  rw [← Nat.xor_assoc, Nat.xor_comm a b, Nat.xor_assoc]

theorem xor_mod_two (a b : Nat) : (a ^^^ b) % 2 = a % 2 ^^^ b % 2 := by
  rw [← Nat.and_one_is_mod, ← Nat.and_one_is_mod a, ← Nat.and_one_is_mod b,
    Nat.and_xor_distrib_right]

theorem crcStep_linear (a b : Nat) :
    crcStep (a ^^^ b) = crcStep a ^^^ crcStep b := by
  unfold crcStep
  have hx := xor_mod_two a b
  rcases Nat.mod_two_eq_zero_or_one a with ha | ha <;>
    rcases Nat.mod_two_eq_zero_or_one b with hb | hb
  · rw [ha, hb, Nat.zero_xor] at hx
    rw [if_neg (by omega), if_neg (by omega), if_neg (by omega)]
    exact shiftRight_xor_distrib a b 1
  · rw [ha, hb, Nat.zero_xor] at hx
    rw [if_pos (by omega), if_neg (by omega), if_pos (by omega),
      shiftRight_xor_distrib]
    ac_rfl
  · rw [ha, hb, Nat.xor_zero] at hx
    rw [if_pos (by omega), if_pos (by omega), if_neg (by omega),
      shiftRight_xor_distrib]
    ac_rfl
  · rw [ha, hb, Nat.xor_self] at hx
    rw [if_neg (by omega), if_pos (by omega), if_pos (by omega),
      shiftRight_xor_distrib, Nat.xor_assoc, xor_left_comm crcPoly,
      Nat.xor_self, Nat.xor_zero]

theorem crcStep_iter_linear (k a b : Nat) :
    crcStep^[k] (a ^^^ b) = crcStep^[k] a ^^^ crcStep^[k] b := by
  induction k generalizing a b with
  | zero => rfl
  | succ k ih =>
    rw [Function.iterate_succ_apply, Function.iterate_succ_apply,
      Function.iterate_succ_apply, crcStep_linear, ih]

theorem crcTableEntry_linear (a b : Nat) :
    crcTableEntry (a ^^^ b) = crcTableEntry a ^^^ crcTableEntry b :=
  crcStep_iter_linear 8 a b

theorem crcStep_lt {r : Nat} (hr : r < 2 ^ 32) : crcStep r < 2 ^ 32 := by
  unfold crcStep
  have h1 : r >>> 1 < 2 ^ 32 := by
    rw [Nat.shiftRight_eq_div_pow]
    omega
  split
  · exact Nat.xor_lt_two_pow h1 (by norm_num [crcPoly])
  · exact h1

theorem crcStep_iter_lt (k : Nat) {r : Nat} (hr : r < 2 ^ 32) :
    crcStep^[k] r < 2 ^ 32 := by
  induction k generalizing r with
  | zero => exact hr
  | succ k ih =>
    rw [Function.iterate_succ_apply]
    exact ih (crcStep_lt hr)

theorem crcTableEntry_lt {i : Nat} (hi : i < 2 ^ 32) :
    crcTableEntry i < 2 ^ 32 := crcStep_iter_lt 8 hi

theorem crcTableEntry_zero : crcTableEntry 0 = 0 := by decide

theorem crcTableEntry_hi_inj : ∀ i j : Fin 256,
    crcTableEntry i.val >>> 24 = crcTableEntry j.val >>> 24 → i = j := by
  decide

theorem crcTableEntry_ne_zero : ∀ e : Fin 256, e.val ≠ 0 →
    crcTableEntry e.val ≠ 0 := by
  decide

theorem and255_lt (d : Nat) : d &&& 255 < 256 := by
  rw [show (255 : Nat) = 2 ^ 8 - 1 by norm_num,
    Nat.and_pow_two_sub_one_eq_mod]
  exact Nat.mod_lt _ (by norm_num)

theorem crcShift_eq_zero {d : Nat} (hd : d < 2 ^ 32)
    (h : crcShift d = 0) : d = 0 := by
  unfold crcShift at h
  have h1 : crcTableEntry (d &&& 255) = d >>> 8 := Nat.xor_eq_zero.mp h
  have h2 : (d >>> 8) >>> 24 = 0 := by
    rw [← Nat.shiftRight_add, show (8 + 24 : Nat) = 32 from rfl,
      Nat.shiftRight_eq_div_pow]
    exact Nat.div_eq_of_lt hd
  have h3 : crcTableEntry (d &&& 255) >>> 24 = 0 := by rw [h1]; exact h2
  have h4 : (⟨d &&& 255, and255_lt d⟩ : Fin 256) = ⟨0, by norm_num⟩ := by
    apply crcTableEntry_hi_inj
    rw [h3, crcTableEntry_zero]
    rfl
  have h5 : d &&& 255 = 0 := congrArg Fin.val h4
  have h6 : d >>> 8 = 0 := by
    rw [← h1, h5, crcTableEntry_zero]
  have h7 : d < 256 := by
    rw [Nat.shiftRight_eq_div_pow] at h6
    omega
  calc d = d % 256 := (Nat.mod_eq_of_lt h7).symm
    _ = d &&& 255 := by
        rw [show (255 : Nat) = 2 ^ 8 - 1 by norm_num,
          Nat.and_pow_two_sub_one_eq_mod]
    _ = 0 := h5

theorem crcUpdate1_delta (a b v : Nat) :
    crcUpdate1 a v ^^^ crcUpdate1 b v = crcShift (a ^^^ b) := by
  unfold crcUpdate1 crcShift
  have htab : crcTableEntry ((a ^^^ b) &&& 255) =
      crcTableEntry ((a &&& 255) ^^^ v) ^^^
        crcTableEntry ((b &&& 255) ^^^ v) := by
    rw [← crcTableEntry_linear]
    congr 1
    rw [Nat.and_xor_distrib_right]
    rw [Nat.xor_assoc, xor_left_comm v, Nat.xor_self, Nat.xor_zero]
  rw [htab, shiftRight_xor_distrib]
  ac_rfl

theorem crcUpdate1_lt {a v : Nat} (ha : a < 2 ^ 32) (hv : v < 256) :
    crcUpdate1 a v < 2 ^ 32 := by
  unfold crcUpdate1
  apply Nat.xor_lt_two_pow
  · exact crcTableEntry_lt
      (lt_trans (Nat.xor_lt_two_pow
        (show a &&& 255 < 2 ^ 8 from and255_lt a)
        (show v < 2 ^ 8 from hv)) (by norm_num))
  · rw [Nat.shiftRight_eq_div_pow]
    omega

theorem crcFoldl_lt {l : List Nat} (hl : ∀ v ∈ l, v < 256) :
    ∀ {a : Nat}, a < 2 ^ 32 → l.foldl crcUpdate1 a < 2 ^ 32 := by
  induction l with
  | nil => intro a ha; exact ha
  | cons v t ih =>
    intro a ha
    rw [List.foldl_cons]
    exact ih (fun w hw => hl w (List.mem_cons_of_mem v hw))
      (crcUpdate1_lt ha (hl v (List.mem_cons_self v t)))

theorem crcFoldl_ne {l : List Nat} (hl : ∀ v ∈ l, v < 256) :
    ∀ {a b : Nat}, a < 2 ^ 32 → b < 2 ^ 32 → a ≠ b →
      l.foldl crcUpdate1 a ≠ l.foldl crcUpdate1 b := by
  induction l with
  | nil => intro a b _ _ hab; exact hab
  | cons v t ih =>
    intro a b ha hb hab
    rw [List.foldl_cons, List.foldl_cons]
    have hv : v < 256 := hl v (List.mem_cons_self v t)
    apply ih (fun w hw => hl w (List.mem_cons_of_mem v hw))
      (crcUpdate1_lt ha hv) (crcUpdate1_lt hb hv)
    intro heq
    have hdelta : crcShift (a ^^^ b) = 0 := by
      rw [← crcUpdate1_delta a b v, heq, Nat.xor_self]
    exact hab (Nat.xor_eq_zero.mp
      (crcShift_eq_zero (Nat.xor_lt_two_pow ha hb) hdelta))

theorem eq_take_cons_drop {l : List Nat} {i : Nat} (hi : i < l.length) :
    l = l.take i ++ l.getD i 0 :: l.drop (i + 1) := by
  rw [List.getD_eq_getElem _ _ hi]
  conv_lhs => rw [← List.take_append_drop i l]
  congr 1
  rw [← List.getElem_cons_drop l i hi]

theorem set_eq_take_cons_drop {l : List Nat} {i : Nat} (hi : i < l.length)
    (w : Nat) : l.set i w = l.take i ++ w :: l.drop (i + 1) := by
  induction l generalizing i with
  | nil => simp at hi
  | cons x t ih =>
    cases i with
    | zero => simp
    | succ i =>
      simp only [List.set_cons_succ, List.take_succ_cons, List.drop_succ_cons,
        List.cons_append, List.cons.injEq, true_and]
      exact ih (by simpa using hi)

/-- Changing one byte of the input always changes the Go CRC-32 checksum. -/
theorem checksum_set_ne {p : List Nat} (hp : ∀ v ∈ p, v < 256) {i : Nat}
    (hi : i < p.length) {w : Nat} (hw : w < 256) (hne : w ≠ p.getD i 0) :
    Checksum (p.set i w) ≠ Checksum p := by
  unfold Checksum
  intro h
  have h2 : (p.set i w).foldl crcUpdate1 (0 ^^^ 0xFFFFFFFF) =
      p.foldl crcUpdate1 (0 ^^^ 0xFFFFFFFF) := by
    have := congrArg (fun x => x ^^^ 0xFFFFFFFF) h
    simpa [Nat.xor_assoc] using this
  rw [set_eq_take_cons_drop hi w] at h2
  conv_rhs at h2 => rw [eq_take_cons_drop hi]
  rw [List.foldl_append, List.foldl_append, List.foldl_cons,
    List.foldl_cons] at h2
  have htk : ∀ v ∈ p.take i, v < 256 :=
    fun v hv => hp v (List.mem_of_mem_take hv)
  have hdr : ∀ v ∈ p.drop (i + 1), v < 256 :=
    fun v hv => hp v (List.mem_of_mem_drop hv)
  have hst : ((p.take i).foldl crcUpdate1 (0 ^^^ 0xFFFFFFFF)) < 2 ^ 32 :=
    crcFoldl_lt htk (by norm_num)
  set s := (p.take i).foldl crcUpdate1 (0 ^^^ 0xFFFFFFFF) with hs
  have hups : crcUpdate1 s w ≠ crcUpdate1 s (p.getD i 0) := by
    intro heq
    have hdelta0 : crcUpdate1 s w ^^^ crcUpdate1 s (p.getD i 0) = 0 := by
      rw [heq, Nat.xor_self]
    simp only [crcUpdate1] at hdelta0
    have e : (crcTableEntry ((s &&& 255) ^^^ w) ^^^ (s >>> 8)) ^^^
        (crcTableEntry ((s &&& 255) ^^^ p.getD i 0) ^^^ (s >>> 8)) =
        crcTableEntry ((s &&& 255) ^^^ w) ^^^
          crcTableEntry ((s &&& 255) ^^^ p.getD i 0) := by
      rw [Nat.xor_assoc, xor_left_comm (s >>> 8), Nat.xor_self, Nat.xor_zero]
    have hxy : crcTableEntry ((s &&& 255) ^^^ w) ^^^
        crcTableEntry ((s &&& 255) ^^^ p.getD i 0) = 0 := by
      rw [← e]
      exact hdelta0
    have hdelta : crcTableEntry (((s &&& 255) ^^^ w) ^^^
        ((s &&& 255) ^^^ p.getD i 0)) = 0 := by
      rw [crcTableEntry_linear]
      exact hxy
    have hx : ((s &&& 255) ^^^ w) ^^^ ((s &&& 255) ^^^ p.getD i 0) =
        w ^^^ p.getD i 0 := by
      rw [Nat.xor_assoc, xor_left_comm w, ← Nat.xor_assoc, Nat.xor_self,
        Nat.zero_xor]
    rw [hx] at hdelta
    have hwp : w ^^^ p.getD i 0 < 256 := by
      have hpi : p.getD i 0 < 256 := by
        rw [List.getD_eq_getElem _ _ hi]
        exact hp _ (List.getElem_mem hi)
      exact Nat.xor_lt_two_pow (show w < 2 ^ 8 from hw)
        (show p.getD i 0 < 2 ^ 8 from hpi)
    have hwnz : w ^^^ p.getD i 0 ≠ 0 := fun hz => hne (Nat.xor_eq_zero.mp hz)
    exact crcTableEntry_ne_zero ⟨w ^^^ p.getD i 0, hwp⟩ hwnz hdelta
  have hpi : p.getD i 0 < 256 := by
    rw [List.getD_eq_getElem _ _ hi]
    exact hp _ (List.getElem_mem hi)
  exact crcFoldl_ne hdr (crcUpdate1_lt hst hw) (crcUpdate1_lt hst hpi)
    hups h2

/-! ## Frame assembly and parsing -/

theorem checksum_lt {p : List Nat} (hp : ∀ v ∈ p, v < 256) :
    Checksum p < 2 ^ 32 := by
  unfold Checksum
  exact Nat.xor_lt_two_pow (crcFoldl_lt hp (by norm_num)) (by norm_num)

theorem assembleFrame (hb p : List Nat) :
    goCopy (goCopy (goCopy
        ((List.replicate (1 + hb.length + p.length + 4) 0).set 0
          (hb.length % 256)) 1 hb) (1 + hb.length) p)
      (1 + hb.length + p.length + 4 - 4) (beBytes 4 (Checksum p)) =
    (hb.length % 256) :: (hb ++ (p ++ beBytes 4 (Checksum p))) := by
  have e0 : (List.replicate (1 + hb.length + p.length + 4) (0 : Nat)).set 0
      (hb.length % 256) =
      (hb.length % 256) :: List.replicate (hb.length + p.length + 4) 0 := by
    rw [show 1 + hb.length + p.length + 4 =
      (hb.length + p.length + 4) + 1 by omega]
    rw [List.replicate_succ, List.set_cons_zero]
  rw [e0]
  have e1 : goCopy ((hb.length % 256) ::
      List.replicate (hb.length + p.length + 4) 0) 1 hb =
      (hb.length % 256) ::
        (hb ++ List.replicate (p.length + 4) 0) := by
    have := @goCopy_fit [hb.length % 256]
      (List.replicate (hb.length + p.length + 4) 0) hb 1 rfl
      (by simp; omega)
    rw [show ([hb.length % 256] ++
        List.replicate (hb.length + p.length + 4) 0) =
      (hb.length % 256) :: List.replicate (hb.length + p.length + 4) 0
      from rfl] at this
    rw [this, drop_replicate]
    rw [show hb.length + p.length + 4 - hb.length = p.length + 4 by omega]
    rfl
  rw [e1]
  have e2 : goCopy ((hb.length % 256) ::
      (hb ++ List.replicate (p.length + 4) 0)) (1 + hb.length) p =
      (hb.length % 256) :: (hb ++ (p ++ List.replicate 4 0)) := by
    rw [show (hb.length % 256) :: (hb ++ List.replicate (p.length + 4) 0) =
      ((hb.length % 256) :: hb) ++ List.replicate (p.length + 4) 0
      from rfl]
    rw [goCopy_fit (by simp; omega) (by simp)]
    rw [drop_replicate]
    rw [show p.length + 4 - p.length = 4 by omega]
    rfl
  rw [e2]
  rw [show (hb.length % 256) :: (hb ++ (p ++ List.replicate 4 0)) =
    (((hb.length % 256) :: hb) ++ p) ++ List.replicate 4 0 from by simp]
  rw [show 1 + hb.length + p.length + 4 - 4 = 1 + hb.length + p.length
    by omega]
  rw [goCopy_fit (by simp; omega) (by simp)]
  rw [drop_replicate]
  simp

theorem tcpWriteFrame_frame (now : Nat) (h : SocketHeader) (p : List Nat) :
    (tcpWriteFrame now h p).2 =
      ((HeaderEncode now { h with Length := p.length }).2.length % 256) ::
        ((HeaderEncode now { h with Length := p.length }).2 ++
          (p ++ beBytes 4 (Checksum p))) := by
  simp only [tcpWriteFrame]
  exact assembleFrame _ p

theorem tcpWriteFrame_header (now : Nat) (h : SocketHeader) (p : List Nat) :
    (tcpWriteFrame now h p).1 =
      SetTimestampIfZero now { h with Length := p.length } := by
  simp only [tcpWriteFrame, HeaderEncode]

theorem tcpReadFrame_parse (hb q c4 : List Nat) (hL : hb.length < 256)
    (h : SocketHeader) (hdec : HeaderDecode hb = .ok h)
    (hlen : h.Length = q.length) (hc4 : c4.length = 4) :
    tcpReadFrame ((hb.length % 256) :: (hb ++ (q ++ c4))) =
      if beUint c4 ≠ Checksum q then .errChecksum else .ok h q := by
  have hmod : hb.length % 256 = hb.length := Nat.mod_eq_of_lt hL
  set st := (hb.length % 256) :: (hb ++ (q ++ c4)) with hstdef
  have hslen : st.length = 1 + hb.length + q.length + 4 := by
    rw [hstdef]
    simp [hc4]
    omega
  simp only [tcpReadFrame]
  simp only [readSlice_some (show 0 + 1 ≤ st.length by omega)]
  have hpre : ((st.drop 0).take 1).headD 0 = hb.length := by
    rw [hstdef]
    simp [hmod]
  rw [hpre]
  simp only [readSlice_some (show 1 + hb.length ≤ st.length by omega)]
  have hhb : (st.drop 1).take hb.length = hb := by
    rw [hstdef, List.drop_succ_cons, List.drop_zero]
    exact List.take_left' rfl
  rw [hhb]
  simp only [hdec]
  simp only [readSlice_some
    (show 1 + hb.length + (h.Length + 4) ≤ st.length by omega)]
  have hd : st.drop (1 + hb.length) = q ++ c4 := by
    rw [hstdef, ← List.drop_drop, List.drop_succ_cons, List.drop_zero]
    exact List.drop_left' rfl
  have hpay : (st.drop (1 + hb.length)).take (h.Length + 4) = q ++ c4 := by
    rw [hd]
    exact List.take_all_of_le (by simp [hc4, hlen])
  rw [hpay]
  rw [List.take_left' hlen.symm, List.drop_left' hlen.symm]

theorem frame_set_payload (hb q c4 : List Nat) (v w : Nat) {i : Nat}
    (hi : i < q.length) :
    (v :: (hb ++ (q ++ c4))).set (1 + hb.length + i) w =
      v :: (hb ++ (q.set i w ++ c4)) := by
  rw [show 1 + hb.length + i = (hb.length + i) + 1 by omega,
    List.set_cons_succ]
  rw [List.set_append_right _ _ (by omega)]
  rw [show hb.length + i - hb.length = i by omega]
  rw [List.set_append_left _ _ hi]

theorem cons_append_drop_all (v : Nat) (a b c : List Nat) :
    (v :: (a ++ (b ++ c))).drop (1 + a.length + b.length) = c := by
  rw [← List.drop_drop, ← List.drop_drop, List.drop_succ_cons,
    List.drop_zero, List.drop_left' rfl, List.drop_left' rfl]

theorem headerEncode_length (now : Nat) (h : SocketHeader) :
    (HeaderEncode now h).2.length = h.HeaderSize := by
  simp only [HeaderEncode]
  by_cases hbc : h.IsBroadcast <;>
    by_cases hp : h.Protocol = ProtocolUDP <;>
      simp [hbc, hp]

theorem headerSize_formula (h : SocketHeader) :
    h.HeaderSize =
      52 + (if h.MessageType = MessageTypeBroadcast ∧ h.Receiver ≠ uuidNil
        then 16 else 0) +
        (if h.Protocol = ProtocolUDP then 4 else 0) := by
  unfold SocketHeader.HeaderSize
  by_cases hb : h.MessageType = MessageTypeBroadcast ∧ h.Receiver ≠ uuidNil <;>
    by_cases hp : h.Protocol = ProtocolUDP
  all_goals
    have hbc : h.IsBroadcast = (decide (h.MessageType =
        MessageTypeBroadcast ∧ h.Receiver ≠ uuidNil)) := by
      by_cases hx : h.MessageType = MessageTypeBroadcast ∧
          h.Receiver ≠ uuidNil
      · simp [hx, (isBroadcast_iff h).mpr hx]
      · simp only [hx, decide_False]
        rw [← Bool.not_eq_true]
        rw [isBroadcast_iff h]
        exact hx
  all_goals simp [hbc, hb, hp]

/-! ## Claim theorems -/

/-- C2: for every header (the `nil` case is unrepresentable), `HeaderEncode`
produces exactly `52` bytes plus `16` when
`MessageType = Broadcast ∧ Receiver ≠ zero` plus `4` when
`Protocol = UDP`; and the bytes are precisely the spec's layout — fixed
fields in order with big-endian multi-byte integers
(`specHeaderLayout` uses `beBytes`), the optional `Receiver` block written
only under the broadcast predicate and the optional `Sequence` block only
under the datagram predicate, each placed right after the four single-byte
control fields. -/
theorem c2_encode_size_layout (now : Nat) (h : SocketHeader)
    (hv : ValidHeader h) :
    (HeaderEncode now h).2.length =
      52 + (if h.MessageType = MessageTypeBroadcast ∧ h.Receiver ≠ uuidNil
        then 16 else 0) +
        (if h.Protocol = ProtocolUDP then 4 else 0) ∧
    (HeaderEncode now h).2 = specHeaderLayout (SetTimestampIfZero now h) := by
  obtain ⟨⟨hIDl, _⟩, ⟨hSl, _⟩, ⟨hRl, _⟩, _⟩ := hv
  constructor
  · rw [headerEncode_length, headerSize_formula]
  · exact headerEncode_bytes now h hIDl hSl (fun _ => hRl)

/-- C2 witness: the theorem applied to a concrete broadcast/UDP header. -/
theorem c2_encode_size_layout_witness :
    ValidHeader
      { ID := List.replicate 16 1, Sender := List.replicate 16 2,
        Receiver := List.replicate 16 4, Timestamp := 5, Length := 3,
        Sequence := 77, Protocol := ProtocolUDP, Flags := 1,
        MessageType := MessageTypeBroadcast, Router := 7 } ∧
    (HeaderEncode 9
      { ID := List.replicate 16 1, Sender := List.replicate 16 2,
        Receiver := List.replicate 16 4, Timestamp := 5, Length := 3,
        Sequence := 77, Protocol := ProtocolUDP, Flags := 1,
        MessageType := MessageTypeBroadcast, Router := 7 }).2.length = 72 := by
  refine ⟨by decide, ?_⟩
  have := (c2_encode_size_layout 9
    { ID := List.replicate 16 1, Sender := List.replicate 16 2,
      Receiver := List.replicate 16 4, Timestamp := 5, Length := 3,
      Sequence := 77, Protocol := ProtocolUDP, Flags := 1,
      MessageType := MessageTypeBroadcast, Router := 7 } (by decide)).1
  rw [this]
  decide

/-- C3 counterexample: a 52-byte input whose message-type byte is
`Broadcast` is in range and its consumed-bytes count (68) differs from its
length, yet `HeaderDecode` does not fail with a `DecodeError` — it reads
past the end of the slice (a Go panic). -/
theorem c3_counterexample :
    (List.replicate 49 0 ++ 2 :: List.replicate 2 (0 : Nat)).length = 52 ∧
    bytesConsumed (List.replicate 49 0 ++ 2 :: List.replicate 2 (0 : Nat)) ≠
      (List.replicate 49 0 ++ 2 :: List.replicate 2 (0 : Nat)).length ∧
    HeaderDecode (List.replicate 49 0 ++ 2 :: List.replicate 2 (0 : Nat)) =
      .panicked := ⟨by decide, by decide, by decide⟩

/-- C3 (amended): `HeaderDecode` fails with a `DecodeError` for every input
whose length is outside `[52, 72]`; and for in-range inputs on which every
field read (including the optional blocks selected by the message-type and
protocol bytes) stays within bounds, a consumed-bytes mismatch fails with a
`DecodeError` — inputs whose optional blocks would extend past the end
instead abort with an out-of-range slice access. -/
theorem c3_decode_errors :
    (∀ data : List Nat, data.length < 52 ∨ 72 < data.length →
      HeaderDecode data = .err .invalidHeaderSize) ∧
    (∀ data : List Nat, 52 ≤ data.length → data.length ≤ 72 →
      bytesConsumed data ≤ data.length →
      bytesConsumed data ≠ data.length →
      HeaderDecode data = .err .sizeMismatch) := by
  constructor
  · intro d hd
    exact headerDecode_outOfRange hd
  · intro d h1 h2 h3 h4
    exact headerDecode_mismatch h1 h2 (by omega)

/-- C3 witness: both amended conjuncts applied at concrete inputs. -/
theorem c3_decode_errors_witness :
    HeaderDecode (List.replicate 10 0) = .err .invalidHeaderSize ∧
    HeaderDecode (List.replicate 60 0) = .err .sizeMismatch :=
  ⟨c3_decode_errors.1 _ (Or.inl (by decide)),
   c3_decode_errors.2 _ (by decide) (by decide) (by decide) (by decide)⟩

/-- C4 counterexample: a 53-byte input passes the `[52, 72]` bounds check,
but its protocol byte selects the optional `Sequence` block and the 4-byte
read at offset 52 runs past the end of the input — `HeaderDecode` crashes
(slice-bounds panic) instead of returning a typed error. -/
theorem c4_counterexample :
    52 ≤ (List.replicate 51 0 ++ [1, 0] : List Nat).length ∧
    (List.replicate 51 0 ++ [1, 0] : List Nat).length ≤ 72 ∧
    HeaderDecode (List.replicate 51 0 ++ [1, 0]) = .panicked :=
  ⟨by decide, by decide, by decide⟩

/-- C4 (amended): `HeaderDecode` returns a header or a typed error for every
input except exactly those in-range inputs whose optional blocks (16 bytes
of `Receiver` whenever the message-type byte is `Broadcast`, 4 bytes of
`Sequence` whenever the protocol byte is `UDP`) extend past the end of the
input; on those it performs an out-of-range slice access (a Go panic). -/
theorem c4_decode_totality (data : List Nat) :
    HeaderDecode data = .panicked ↔
      52 ≤ data.length ∧ data.length ≤ 72 ∧
        data.length < bytesConsumed data := by
  constructor
  · intro hp
    by_cases h1 : 52 ≤ data.length
    · by_cases h2 : data.length ≤ 72
      · refine ⟨h1, h2, ?_⟩
        rcases Nat.lt_trichotomy (bytesConsumed data) data.length with
          hlt | heq | hgt
        · rw [headerDecode_mismatch h1 h2 hlt] at hp
          simp at hp
        · rw [headerDecode_ok h1 h2 heq] at hp
          simp at hp
        · exact hgt
      · rw [headerDecode_outOfRange (Or.inr (by omega))] at hp
        simp at hp
    · rw [headerDecode_outOfRange (Or.inl (by omega))] at hp
      simp at hp
  · rintro ⟨h1, h2, h3⟩
    exact headerDecode_panic h1 h2 h3

/-- C4 witness: the amended characterization applied at a concrete in-range
broadcast input that lacks its `Receiver` block. -/
theorem c4_decode_totality_witness :
    HeaderDecode (List.replicate 49 0 ++ 2 :: List.replicate 10 (0 : Nat)) =
      .panicked :=
  (c4_decode_totality _).mpr ⟨by decide, by decide, by decide⟩

/-- C8: at encode time a zero `Timestamp` is populated with the current
epoch milliseconds (the `now` parameter models
`uint64(time.Now().UnixMilli())`), and a non-zero `Timestamp` is preserved
exactly through `HeaderEncode`. -/
theorem c8_timestamp (now : Nat) (h : SocketHeader) :
    (h.Timestamp = 0 → (HeaderEncode now h).1.Timestamp = now) ∧
    (h.Timestamp ≠ 0 → (HeaderEncode now h).1.Timestamp = h.Timestamp) := by
  have he : (HeaderEncode now h).1 = SetTimestampIfZero now h := rfl
  constructor
  · intro h0
    rw [he, setTs_Timestamp, if_pos h0]
  · intro h0
    rw [he, setTs_Timestamp, if_neg h0]

/-- C8 witness: both conjuncts at concrete headers. -/
theorem c8_timestamp_witness :
    (HeaderEncode 9
      { ID := List.replicate 16 1, Sender := List.replicate 16 2,
        Receiver := List.replicate 16 0, Timestamp := 0, Length := 3,
        Sequence := 0, Protocol := ProtocolTCP, Flags := 0,
        MessageType := MessageTypeData, Router := 7 }).1.Timestamp = 9 ∧
    (HeaderEncode 9
      { ID := List.replicate 16 1, Sender := List.replicate 16 2,
        Receiver := List.replicate 16 0, Timestamp := 5, Length := 3,
        Sequence := 0, Protocol := ProtocolTCP, Flags := 0,
        MessageType := MessageTypeData, Router := 7 }).1.Timestamp = 5 :=
  ⟨(c8_timestamp 9 _).1 (by decide), (c8_timestamp 9 _).2 (by decide)⟩

/-- C9: the stream (TCP) transport's `WriteFrame` never overwrites the
caller-supplied `Sender` or `Sequence` (nor any other field except `Length`,
which becomes the payload length, and a zero `Timestamp`). -/
theorem c9_tcp_write_preserves (now : Nat) (h : SocketHeader)
    (p : List Nat) :
    (tcpWriteFrame now h p).1.Sender = h.Sender ∧
    (tcpWriteFrame now h p).1.Sequence = h.Sequence ∧
    (tcpWriteFrame now h p).1.ID = h.ID ∧
    (tcpWriteFrame now h p).1.Receiver = h.Receiver ∧
    (tcpWriteFrame now h p).1.Flags = h.Flags ∧
    (tcpWriteFrame now h p).1.MessageType = h.MessageType ∧
    (tcpWriteFrame now h p).1.Router = h.Router ∧
    (tcpWriteFrame now h p).1.Protocol = h.Protocol ∧
    (tcpWriteFrame now h p).1.Length = p.length ∧
    (h.Timestamp ≠ 0 → (tcpWriteFrame now h p).1.Timestamp = h.Timestamp) := by
  rw [tcpWriteFrame_header]
  refine ⟨by simp, by simp, by simp, by simp, by simp, by simp, by simp,
    by simp, ?_, ?_⟩
  · rw [setTs_Length]
  · intro h0
    rw [setTs_Timestamp]
    exact if_neg h0

/-- C9 witness: applied at a concrete header and payload, including the
non-zero-timestamp conjunct. -/
theorem c9_tcp_write_preserves_witness :
    (tcpWriteFrame 9
      { ID := List.replicate 16 1, Sender := List.replicate 16 2,
        Receiver := List.replicate 16 0, Timestamp := 5, Length := 99,
        Sequence := 77, Protocol := ProtocolTCP, Flags := 0,
        MessageType := MessageTypeData, Router := 7 } [10, 20]).1.Sender =
      List.replicate 16 2 ∧
    (tcpWriteFrame 9
      { ID := List.replicate 16 1, Sender := List.replicate 16 2,
        Receiver := List.replicate 16 0, Timestamp := 5, Length := 99,
        Sequence := 77, Protocol := ProtocolTCP, Flags := 0,
        MessageType := MessageTypeData, Router := 7 } [10, 20]).1.Sequence =
      77 ∧
    (tcpWriteFrame 9
      { ID := List.replicate 16 1, Sender := List.replicate 16 2,
        Receiver := List.replicate 16 0, Timestamp := 5, Length := 99,
        Sequence := 77, Protocol := ProtocolTCP, Flags := 0,
        MessageType := MessageTypeData, Router := 7 } [10, 20]).1.Timestamp =
      5 :=
  ⟨(c9_tcp_write_preserves 9 _ _).1,
   (c9_tcp_write_preserves 9 _ _).2.1,
   (c9_tcp_write_preserves 9 _ _).2.2.2.2.2.2.2.2.2 (by decide)⟩

/-- C10: the `Flag` constants are declared with a plain `iota`
(0, 1, 2, 3, 4) although `constants.go` documents `Flag` as a bitmask and
`HasFlag` tests membership with a bitwise AND.  Setting only
`FlagCompressed` (= 3 = `0b11`) on an empty flag set makes `HasFlag`
also report `FlagACK` (= 1) as set, contradicting the bitmask reading. -/
theorem c10_flags_iota_bug :
    FlagCompressed ≠ FlagNone ∧ FlagACK ≠ FlagNone ∧
    FlagCompressed ≠ FlagACK ∧
    HasFlag (SetFlag FlagNone FlagCompressed) FlagCompressed = true ∧
    HasFlag (SetFlag FlagNone FlagCompressed) FlagACK = true := by
  decide

/-- C1 counterexample: a valid header with `MessageType = Broadcast` and a
zero `Receiver` (and stream protocol).  The encoder omits the `Receiver`
block (52 bytes) but the decoder reads it anyway, so
`decode(encode(header))` does not reproduce the header — it crashes with an
out-of-range slice access. -/
theorem c1_counterexample :
    ValidHeader
      { ID := List.replicate 16 1, Sender := List.replicate 16 2,
        Receiver := List.replicate 16 0, Timestamp := 5, Length := 0,
        Sequence := 0, Protocol := ProtocolTCP, Flags := 0,
        MessageType := MessageTypeBroadcast, Router := 7 } ∧
    HeaderDecode (HeaderEncode 9
      { ID := List.replicate 16 1, Sender := List.replicate 16 2,
        Receiver := List.replicate 16 0, Timestamp := 5, Length := 0,
        Sequence := 0, Protocol := ProtocolTCP, Flags := 0,
        MessageType := MessageTypeBroadcast, Router := 7 }).2 = .panicked :=
  ⟨by decide, by decide⟩

/-- C1 (amended): for every valid header that is not in the
broadcast-with-zero-receiver corner, decoding an encoded header reproduces
every field exactly — identifiers, timestamp (as mutated by the encoder when
it was zero), length, flags, message type, router, protocol, and, when
applicable, receiver (broadcast) and sequence (datagram); the decoder
leaves `Receiver = uuid.Nil` and `Sequence = 0` when not applicable. -/
theorem c1_roundtrip (now : Nat) (h : SocketHeader) (hv : ValidHeader h)
    (hnow : now < 2 ^ 64)
    (hne : ¬(h.MessageType = MessageTypeBroadcast ∧ h.Receiver = uuidNil)) :
    HeaderDecode (HeaderEncode now h).2 = .ok
      { ID := h.ID, Sender := h.Sender,
        Receiver := if h.IsBroadcast then h.Receiver else uuidNil,
        Timestamp := if h.Timestamp = 0 then now else h.Timestamp,
        Length := h.Length,
        Sequence := if h.Protocol = ProtocolUDP then h.Sequence else 0,
        Protocol := h.Protocol, Flags := h.Flags,
        MessageType := h.MessageType, Router := h.Router } := by
  obtain ⟨⟨hIDl, _⟩, ⟨hSl, _⟩, ⟨hRl, _⟩, hts, hlen, hseq, _⟩ := hv
  rw [headerEncode_bytes now h hIDl hSl (fun _ => hRl)]
  rw [headerDecode_layout (SetTimestampIfZero now h)
    (by rw [setTs_ID]; exact hIDl)
    (by rw [setTs_Sender]; exact hSl)
    (by rw [setTs_Receiver]; exact fun _ => hRl)
    (by
      rw [setTs_Timestamp]
      split
      · exact hnow
      · exact hts)
    (by rw [setTs_Length]; exact hlen)
    (by rw [setTs_Sequence]; exact hseq)
    (by rw [setTs_MessageType, setTs_Receiver]; exact hne)]
  congr 1
  by_cases h0 : h.Timestamp = 0 <;>
    simp [SetTimestampIfZero, h0, SocketHeader.IsBroadcast]

/-- C1 witness: the amended round trip at a concrete broadcast/UDP header
with non-zero receiver. -/
theorem c1_roundtrip_witness :
    ValidHeader
      { ID := List.replicate 16 1, Sender := List.replicate 16 2,
        Receiver := List.replicate 16 4, Timestamp := 5, Length := 3,
        Sequence := 77, Protocol := ProtocolUDP, Flags := 1,
        MessageType := MessageTypeBroadcast, Router := 7 } ∧
    HeaderDecode (HeaderEncode 9
      { ID := List.replicate 16 1, Sender := List.replicate 16 2,
        Receiver := List.replicate 16 4, Timestamp := 5, Length := 3,
        Sequence := 77, Protocol := ProtocolUDP, Flags := 1,
        MessageType := MessageTypeBroadcast, Router := 7 }).2 = .ok
      { ID := List.replicate 16 1, Sender := List.replicate 16 2,
        Receiver := List.replicate 16 4, Timestamp := 5, Length := 3,
        Sequence := 77, Protocol := ProtocolUDP, Flags := 1,
        MessageType := MessageTypeBroadcast, Router := 7 } := by
  refine ⟨by decide, ?_⟩
  have := c1_roundtrip 9
    { ID := List.replicate 16 1, Sender := List.replicate 16 2,
      Receiver := List.replicate 16 4, Timestamp := 5, Length := 3,
      Sequence := 77, Protocol := ProtocolUDP, Flags := 1,
      MessageType := MessageTypeBroadcast, Router := 7 }
    (by decide) (by decide) (by decide)
  rw [this]
  decide

theorem udpWriteFrame_header (now : Nat) (u : UdpConn) (h : SocketHeader)
    (p : List Nat) :
    (udpWriteFrame now u h p).2.1 =
      SetTimestampIfZero now
        { h with Sender := u.sender, Protocol := ProtocolUDP,
                 Sequence := u.sequence, Length := p.length } := by
  simp only [udpWriteFrame]
  split <;> rfl

theorem udpWriteFrame_conn (now : Nat) (u : UdpConn) (h : SocketHeader)
    (p : List Nat) :
    (udpWriteFrame now u h p).1 =
      { u with sequence := (u.sequence + 1) % 2 ^ 32 } := by
  simp only [udpWriteFrame]
  split <;> rfl

/-- C5 counterexample: a fresh datagram transport (counter 0, maximum 70).
The first `WriteFrame` exceeds the maximum and fails, but still consumes a
sequence number; the second call succeeds, and its `Sequence` is 1 — so the
successful calls do not start from the instance's initial counter value 0. -/
theorem c5_counterexample :
    (UdpConn.mk 70 (List.replicate 16 3) 0).sequence = 0 ∧
    (udpWriteFrame 9 (UdpConn.mk 70 (List.replicate 16 3) 0)
      { ID := List.replicate 16 1, Sender := List.replicate 16 9,
        Receiver := List.replicate 16 0, Timestamp := 5, Length := 99,
        Sequence := 77, Protocol := ProtocolTCP, Flags := 0,
        MessageType := MessageTypeData, Router := 7 }
      (List.replicate 20 0)).2.2 = .errTooLarge ∧
    (udpWriteFrame 9
      (udpWriteFrame 9 (UdpConn.mk 70 (List.replicate 16 3) 0)
        { ID := List.replicate 16 1, Sender := List.replicate 16 9,
          Receiver := List.replicate 16 0, Timestamp := 5, Length := 99,
          Sequence := 77, Protocol := ProtocolTCP, Flags := 0,
          MessageType := MessageTypeData, Router := 7 }
        (List.replicate 20 0)).1
      { ID := List.replicate 16 1, Sender := List.replicate 16 9,
        Receiver := List.replicate 16 0, Timestamp := 5, Length := 99,
        Sequence := 77, Protocol := ProtocolTCP, Flags := 0,
        MessageType := MessageTypeData, Router := 7 } []).2.2 ≠
      .errTooLarge ∧
    (udpWriteFrame 9
      (udpWriteFrame 9 (UdpConn.mk 70 (List.replicate 16 3) 0)
        { ID := List.replicate 16 1, Sender := List.replicate 16 9,
          Receiver := List.replicate 16 0, Timestamp := 5, Length := 99,
          Sequence := 77, Protocol := ProtocolTCP, Flags := 0,
          MessageType := MessageTypeData, Router := 7 }
        (List.replicate 20 0)).1
      { ID := List.replicate 16 1, Sender := List.replicate 16 9,
        Receiver := List.replicate 16 0, Timestamp := 5, Length := 99,
        Sequence := 77, Protocol := ProtocolTCP, Flags := 0,
        MessageType := MessageTypeData, Router := 7 } []).2.1.Sequence = 1 :=
  ⟨by decide, by decide, by decide, by decide⟩

/-- C5 (amended): the datagram `WriteFrame` unconditionally overwrites
`Sender` with the transport's identity, `Protocol` with UDP, and `Sequence`
with the current counter, and increments the counter by one modulo `2^32`
on every call that passes the nil-header check — including calls that fail
the size check, which therefore also consume a sequence number.  Hence a
call made on the post-state carries `Sequence = (old + 1) % 2^32`, one more
than the previous call's, and `WriteFrame` fails with the message-too-large
error exactly when `1 + headerSize + payloadLength + 4` exceeds the
configured maximum. -/
theorem c5_udp_write (now now2 : Nat) (u : UdpConn) (h g : SocketHeader)
    (p q : List Nat) :
    (udpWriteFrame now u h p).2.1.Sender = u.sender ∧
    (udpWriteFrame now u h p).2.1.Protocol = ProtocolUDP ∧
    (udpWriteFrame now u h p).2.1.Sequence = u.sequence ∧
    (udpWriteFrame now u h p).1.sequence = (u.sequence + 1) % 2 ^ 32 ∧
    ((udpWriteFrame now u h p).2.2 = .errTooLarge ↔
      u.maxMessageSize < 1 + (52 +
        (if h.MessageType = MessageTypeBroadcast ∧ h.Receiver ≠ uuidNil
          then 16 else 0) + 4) + p.length + 4) ∧
    (udpWriteFrame now2 (udpWriteFrame now u h p).1 g q).2.1.Sequence =
      (u.sequence + 1) % 2 ^ 32 := by
  have hsz : (HeaderEncode now
      { h with Sender := u.sender, Protocol := ProtocolUDP,
               Sequence := u.sequence, Length := p.length }).2.length =
      52 + (if h.MessageType = MessageTypeBroadcast ∧ h.Receiver ≠ uuidNil
        then 16 else 0) + 4 := by
    rw [headerEncode_length, headerSize_formula]
    simp
  refine ⟨?_, ?_, ?_, ?_, ?_, ?_⟩
  · rw [udpWriteFrame_header]
    simp
  · rw [udpWriteFrame_header]
    simp
  · rw [udpWriteFrame_header]
    simp
  · rw [udpWriteFrame_conn]
  · simp only [udpWriteFrame]
    rw [hsz]
    split_ifs <;>
      first
        | exact ⟨fun _ => by omega, fun _ => rfl⟩
        | exact ⟨fun hx => absurd hx (by simp), fun hx => absurd hx (by omega)⟩
  · rw [udpWriteFrame_header, udpWriteFrame_conn]
    simp

/-- C7: after building a frame for transmission on either transport, the
header's `Length` equals the byte count of the payload supplied with that
call (the caller-supplied value is overwritten), and the serialized header
inside the TCP frame carries exactly those 8 big-endian length bytes at
their wire position (frame bytes 41..48). -/
theorem c7_length_derived (now : Nat) (h : SocketHeader) (u : UdpConn)
    (p : List Nat) (hv : ValidHeader h) :
    (tcpWriteFrame now h p).1.Length = p.length ∧
    (udpWriteFrame now u h p).2.1.Length = p.length ∧
    ((tcpWriteFrame now h p).2.drop 41).take 8 = beBytes 8 p.length := by
  obtain ⟨⟨hIDl, _⟩, ⟨hSl, _⟩, ⟨hRl, _⟩, _⟩ := hv
  refine ⟨?_, ?_, ?_⟩
  · rw [tcpWriteFrame_header]
    simp
  · rw [udpWriteFrame_header]
    simp
  · rw [tcpWriteFrame_frame]
    set hb := (HeaderEncode now { h with Length := p.length }).2 with hhb
    have hbl : 52 ≤ hb.length := by
      rw [hhb, headerEncode_length]
      exact headerSize_ge _
    have e1 : ((hb.length % 256) ::
        (hb ++ (p ++ beBytes 4 (Checksum p)))).drop 41 =
        (hb ++ (p ++ beBytes 4 (Checksum p))).drop 40 := by
      rw [show (41 : Nat) = 40 + 1 from rfl, List.drop_succ_cons]
    rw [e1, List.drop_append_eq_append_drop,
      show 40 - hb.length = 0 by omega, List.drop_zero]
    have hb40 : hb.drop 40 = beBytes 8 p.length ++
        ((SetTimestampIfZero now { h with Length := p.length }).Flags ::
          (SetTimestampIfZero now
            { h with Length := p.length }).MessageType ::
          (SetTimestampIfZero now { h with Length := p.length }).Router ::
          (SetTimestampIfZero now { h with Length := p.length }).Protocol ::
          layoutTail (SetTimestampIfZero now
            { h with Length := p.length })) := by
      rw [hhb, headerEncode_bytes now _ (by simpa using hIDl)
        (by simpa using hSl)
        (by
          intro hbc
          simpa using hRl)]
      rw [layout_drop40 _ (by simpa using hIDl) (by simpa using hSl)]
      rw [setTs_Length]
    rw [hb40, List.append_assoc, List.take_append_eq_append_take,
      List.take_all_of_le (by rw [beBytes_length]),
      show (8 : Nat) - (beBytes 8 p.length).length = 0 by
        rw [beBytes_length],
      List.take_zero, List.append_nil]

/-- C7 witness: at a concrete header whose caller-supplied `Length` (99)
differs from the actual payload length (2). -/
theorem c7_length_derived_witness :
    (tcpWriteFrame 9
      { ID := List.replicate 16 1, Sender := List.replicate 16 2,
        Receiver := List.replicate 16 0, Timestamp := 5, Length := 99,
        Sequence := 0, Protocol := ProtocolTCP, Flags := 0,
        MessageType := MessageTypeData, Router := 7 } [10, 20]).1.Length =
      2 ∧
    (udpWriteFrame 9 (UdpConn.mk 700 (List.replicate 16 3) 0)
      { ID := List.replicate 16 1, Sender := List.replicate 16 2,
        Receiver := List.replicate 16 0, Timestamp := 5, Length := 99,
        Sequence := 0, Protocol := ProtocolTCP, Flags := 0,
        MessageType := MessageTypeData, Router := 7 } [10, 20]).2.1.Length =
      2 :=
  ⟨(c7_length_derived 9 _ (UdpConn.mk 700 (List.replicate 16 3) 0) [10, 20]
      (by decide)).1,
   (c7_length_derived 9 _ (UdpConn.mk 700 (List.replicate 16 3) 0) [10, 20]
      (by decide)).2.1⟩

/-- C6: the frame's 4-byte trailer is the CRC-32 (IEEE polynomial) of the
payload bytes only — `Checksum` reads nothing but the payload, so the
trailer is independent of the header bytes; the built frame parses; flipping
any single payload byte of the frame makes `ReadFrame` fail with the
checksum-mismatch error; and flipping a header byte does not necessarily
fail the checksum check — in the concrete frame of the last conjunct the
first `ID` byte is flipped and the parse still succeeds (with the altered
`ID`). -/
theorem c6_checksum (now : Nat) (h : SocketHeader) (p : List Nat)
    (hv : ValidHeader h) (hp : ∀ v ∈ p, v < 256) (hnow : now < 2 ^ 64)
    (hplen : p.length < 2 ^ 64)
    (hne : ¬(h.MessageType = MessageTypeBroadcast ∧ h.Receiver = uuidNil)) :
    (tcpWriteFrame now h p).2.drop ((tcpWriteFrame now h p).2.length - 4) =
      beBytes 4 (Checksum p) ∧
    (∃ hdr, tcpReadFrame (tcpWriteFrame now h p).2 = .ok hdr p) ∧
    (∀ i < p.length, ∀ w < 256, w ≠ p.getD i 0 →
      tcpReadFrame ((tcpWriteFrame now h p).2.set (1 + h.HeaderSize + i) w) =
        .errChecksum) ∧
    tcpReadFrame (((tcpWriteFrame 9
      { ID := List.replicate 16 1, Sender := List.replicate 16 2,
        Receiver := List.replicate 16 0, Timestamp := 5, Length := 3,
        Sequence := 0, Protocol := ProtocolTCP, Flags := 0,
        MessageType := MessageTypeData, Router := 7 } [10, 20, 30]).2).set 1
          55) = .ok
      { ID := 55 :: List.replicate 15 1, Sender := List.replicate 16 2,
        Receiver := List.replicate 16 0, Timestamp := 5, Length := 3,
        Sequence := 0, Protocol := ProtocolTCP, Flags := 0,
        MessageType := MessageTypeData, Router := 7 } [10, 20, 30] := by
  obtain ⟨⟨hIDl, _⟩, ⟨hSl, _⟩, ⟨hRl, _⟩, hts, hlen, hseq, _⟩ := hv
  set h1 : SocketHeader := { h with Length := p.length } with hh1
  set hb := (HeaderEncode now h1).2 with hhb
  have hbsz : hb.length = h.HeaderSize := by
    rw [hhb, headerEncode_length]
    exact rfl
  have hb52 : 52 ≤ hb.length := by
    rw [hbsz]
    exact headerSize_ge h
  have hL : hb.length < 256 := by
    rw [hbsz]
    have := headerSize_le h
    omega
  have hcs : Checksum p < 2 ^ (8 * 4) := by
    have := checksum_lt hp
    norm_num
    exact this
  obtain ⟨hdr, hdec2, hdrLen⟩ : ∃ hdr, HeaderDecode hb = .ok hdr ∧
      hdr.Length = p.length := by
    refine ⟨{ SetTimestampIfZero now h1 with
      Receiver := if (SetTimestampIfZero now h1).IsBroadcast then
        (SetTimestampIfZero now h1).Receiver else uuidNil,
      Sequence := if (SetTimestampIfZero now h1).Protocol = ProtocolUDP then
        (SetTimestampIfZero now h1).Sequence else 0 }, ?_, ?_⟩
    · rw [hhb, headerEncode_bytes now h1 (by rw [hh1]; exact hIDl)
        (by rw [hh1]; exact hSl) (fun _ => by rw [hh1]; exact hRl)]
      exact headerDecode_layout (SetTimestampIfZero now h1)
        (by rw [setTs_ID, hh1]; exact hIDl)
        (by rw [setTs_Sender, hh1]; exact hSl)
        (by rw [setTs_Receiver, hh1]; exact fun _ => hRl)
        (by
          rw [setTs_Timestamp]
          split
          · exact hnow
          · rw [hh1]; exact hts)
        (by rw [setTs_Length, hh1]; exact hplen)
        (by rw [setTs_Sequence, hh1]; exact hseq)
        (by rw [setTs_MessageType, setTs_Receiver, hh1]; exact hne)
    · show (SetTimestampIfZero now h1).Length = p.length
      rw [setTs_Length]
  refine ⟨?_, ?_, ?_, by decide⟩
  · rw [tcpWriteFrame_frame, ← hh1, ← hhb]
    rw [show ((hb.length % 256) ::
        (hb ++ (p ++ beBytes 4 (Checksum p)))).length - 4 =
        1 + hb.length + p.length by
      simp [List.length_cons, List.length_append, beBytes_length]
      omega]
    exact cons_append_drop_all _ hb p _
  · refine ⟨hdr, ?_⟩
    rw [tcpWriteFrame_frame, ← hh1, ← hhb]
    rw [tcpReadFrame_parse hb p (beBytes 4 (Checksum p)) hL hdr hdec2
      hdrLen (beBytes_length _ _)]
    rw [beUint_beBytes_of_lt hcs]
    exact if_neg (by simp)
  · intro i hi w hw hwne
    rw [tcpWriteFrame_frame, ← hh1, ← hhb]
    rw [show 1 + h.HeaderSize + i = 1 + hb.length + i by omega]
    rw [frame_set_payload hb p (beBytes 4 (Checksum p)) _ w hi]
    rw [tcpReadFrame_parse hb (p.set i w) (beBytes 4 (Checksum p)) hL hdr
      hdec2 (by rw [List.length_set]; exact hdrLen) (beBytes_length _ _)]
    rw [beUint_beBytes_of_lt hcs]
    exact if_pos ((checksum_set_ne hp hi hw hwne).symm)

/-- C6 witness: the payload-flip conjunct applied at a concrete frame,
flipping the first payload byte. -/
theorem c6_checksum_witness :
    tcpReadFrame (((tcpWriteFrame 9
      { ID := List.replicate 16 1, Sender := List.replicate 16 2,
        Receiver := List.replicate 16 0, Timestamp := 5, Length := 99,
        Sequence := 0, Protocol := ProtocolTCP, Flags := 0,
        MessageType := MessageTypeData, Router := 7 } [10, 20, 30]).2).set
      53 11) = .errChecksum :=
  (c6_checksum 9
    { ID := List.replicate 16 1, Sender := List.replicate 16 2,
      Receiver := List.replicate 16 0, Timestamp := 5, Length := 99,
      Sequence := 0, Protocol := ProtocolTCP, Flags := 0,
      MessageType := MessageTypeData, Router := 7 } [10, 20, 30]
    (by decide) (by decide) (by decide) (by decide) (by decide)).2.2.1
    0 (by decide) 11 (by decide) (by decide)

end SocketHub
